import Mathlib

/-!
# Triangle / tetrahedron element algebra of t8code (`t8_dtri_bits.c`)

A shallow embedding of `src/src/t8_default/t8_dtri_bits.c`.  The C file is compiled
twice, once as it stands (triangles, 2D) and once with `T8_DTRI_TO_DTET` defined
(tetrahedra, 3D).  Both builds are embedded by one set of definitions that take a
`Scheme`: the flag `tet` plays the role of `T8_DTRI_TO_DTET`, and every `#ifdef`
of the source is an `if S.tet` here.

Modelling conventions.

* C integers are mathematical integers (`Int`).  On elements whose coordinates lie
  in `[0, 2^MAXLEVEL)` no operation of the file leaves the range of the coordinate
  type, so no wrap-around is modelled.
* `&`, `|`, `^`, `~`, `>>` are the two's-complement operations on integers of
  unbounded width (`band`, `Int.lor`, `Int.xor`, `Int.lnot`, `Int.shiftRight`).
* Functions that write through an output pointer are state transformers on a
  memory `Mem` of elements, one C statement after the other, so that a call whose
  input and output pointer coincide is covered by the same definition.
* `T8_ASSERT` failures, `SC_ABORT` and array accesses outside the declared bounds
  are results `Except.error`.
-/

namespace T8

/-! ## Integer operations -/

/-- Bitwise AND of two's-complement integers of unbounded width (the C operator `&`).
It agrees with `Int.land` (theorem `band_eq_land`) and is written with `Nat.land`,
`Nat.lor` and `Nat.xor` only, so that it evaluates on numerals. -/
def band : Int → Int → Int
  | Int.ofNat m, Int.ofNat n => Int.ofNat (m &&& n)
  | Int.ofNat m, Int.negSucc n => Int.ofNat (m ^^^ (m &&& n))
  | Int.negSucc m, Int.ofNat n => Int.ofNat (n ^^^ (n &&& m))
  | Int.negSucc m, Int.negSucc n => Int.negSucc (m ||| n)

/-! ## Errors, elements, memory -/

/-- The ways a call can fail.  `InvalidLevel` and `InvalidIndex` are failed `T8_ASSERT`s
(on a level, resp. on a child, face or vertex index), `UnimplementedOperation` is
`SC_ABORT ("Not implemented")`, and `OutOfBounds` is an access to a C array outside
its declared bounds. -/
inductive Err where
  | InvalidLevel
  | InvalidIndex
  | UnimplementedOperation
  | OutOfBounds
  deriving DecidableEq, Repr

/-- The element `t8_dtri_t` (`t8_dtet_t` in the 3D build).  The field `z` and the field
`eclass` exist in the 3D build only; the 2D code never reads or writes them. -/
structure t8_dtri_t where
  x : Int
  y : Int
  z : Int
  level : Int
  type : Int
  eclass : Int
  deriving DecidableEq, Repr

/-- Addresses of elements. -/
abbrev Ptr := Nat

/-- Memory holding elements. -/
abbrev Mem := Ptr → t8_dtri_t

/-- Update of the element stored at `p`, as done by an assignment `p->field = v`. -/
def Mem.write (m : Mem) (p : Ptr) (f : t8_dtri_t → t8_dtri_t) : Mem :=
  fun q => if q = p then f (m q) else m q

/-- A memory with `a` at address 0 and `b` at every other address. -/
def mem2 (a b : t8_dtri_t) : Mem := fun p => if p = 0 then a else b

/-! ## The build configuration -/

/-- What the headers `t8_dtri.h`, `t8_dtri_connectivity.h` (2D) and `t8_dtet.h`,
`t8_dtet_connectivity.h` (3D) supply to `t8_dtri_bits.c`.  None of them is among
the sources, so the maximal level and the contents of the three tables are
parameters; the shapes of the tables are those of section 6 of the specification. -/
structure Scheme where
  /-- Whether `T8_DTRI_TO_DTET` is defined (3D build). -/
  tet : Bool
  /-- The constant `T8_DTRI_MAXLEVEL`. -/
  MAXLEVEL : Nat
  /-- The table `t8_dtri_cid_type_to_parenttype[numCubeIds][numTypes]`. -/
  t8_dtri_cid_type_to_parenttype : Nat → Nat → Int
  /-- The table `t8_dtri_index_to_bey_number[numTypes][numChildren]`. -/
  t8_dtri_index_to_bey_number : Nat → Nat → Int
  /-- The table `t8_dtri_type_of_child[numTypes][numBeyIds]`. -/
  t8_dtri_type_of_child : Nat → Nat → Int

/-- The constant `T8_DTRI_DIM`. -/
def Scheme.T8_DTRI_DIM (S : Scheme) : Nat := if S.tet then 3 else 2

/-- The constant `T8_DTRI_FACES` (also the number of vertices). -/
def Scheme.T8_DTRI_FACES (S : Scheme) : Nat := if S.tet then 4 else 3

/-- The constant `T8_DTRI_CHILDREN`. -/
def Scheme.T8_DTRI_CHILDREN (S : Scheme) : Nat := if S.tet then 8 else 4

/-- The number of types: 2 for triangles, 6 for tetrahedra. -/
def Scheme.numTypes (S : Scheme) : Nat := if S.tet then 6 else 2

/-- The number of cube-ids: 4 for triangles, 8 for tetrahedra. -/
def Scheme.numCubeIds (S : Scheme) : Nat := if S.tet then 8 else 4

/-- Modelled from the spec: the macro `T8_DTRI_LEN` is defined in `t8_dtri.h`, which is
not among the sources.  Section 3 gives the cell length `h(L) = 2^(MAXLEVEL-L)` for
`0 ≤ L ≤ MAXLEVEL`; outside that range the exponent is cut off at 0. -/
def T8_DTRI_LEN (S : Scheme) (l : Int) : Int := 2 ^ (S.MAXLEVEL - l).toNat

/-- Read `tbl[i][j]` from a table declared as `tbl[rows][cols]`. -/
def tableGet (rows cols : Nat) (tbl : Nat → Nat → Int) (i j : Int) : Except Err Int :=
  if 0 ≤ i ∧ i < rows ∧ 0 ≤ j ∧ j < cols then .ok (tbl i.toNat j.toNat)
  else .error .OutOfBounds

/-- Read `a[i]` from a local array. -/
def arrGet (a : List Int) (i : Int) : Except Err Int :=
  if 0 ≤ i ∧ i < a.length then .ok (a.getD i.toNat 0) else .error .OutOfBounds

/-- The statement `a[i] += h` on a local array. -/
def arrAdd (a : List Int) (i : Int) (h : Int) : Except Err (List Int) :=
  if 0 ≤ i ∧ i < a.length then .ok (a.set i.toNat (a.getD i.toNat 0 + h))
  else .error .OutOfBounds

/-- Entry `i` of a table given by its rows. -/
def rowsGet (rows : List (List Int)) (i j : Nat) : Int := (rows.getD i []).getD j 0

/-! ## The constant tables of the refinement scheme

The files `t8_dtri_connectivity.c` and `t8_dtet_connectivity.c` are not among the
sources and the specification fixes the tables only as "values fixed by the
refinement scheme's combinatorics".  The values below are those of Bey's refinement
with the tetrahedral Morton order, as t8code ships them. -/

/-- Modelled from the spec: `t8_dtri_cid_type_to_parenttype[4][2]` (ParentTypeTable, 2D),
missing from the sources. -/
def tri_cid_type_to_parenttype : List (List Int) :=
  [[0, 1], [0, 0], [1, 1], [0, 1]]

/-- Modelled from the spec: `t8_dtri_index_to_bey_number[2][4]` (ChildIdToBeyNumberTable,
2D), missing from the sources. -/
def tri_index_to_bey_number : List (List Int) :=
  [[0, 1, 3, 2], [0, 3, 1, 2]]

/-- Modelled from the spec: `t8_dtri_type_of_child[2][4]` (ChildTypeTable, 2D), missing
from the sources. -/
def tri_type_of_child : List (List Int) :=
  [[0, 0, 0, 1], [1, 1, 1, 0]]

/-- Modelled from the spec: `t8_dtet_cid_type_to_parenttype[8][6]` (ParentTypeTable, 3D),
missing from the sources. -/
def tet_cid_type_to_parenttype : List (List Int) :=
  [[0, 1, 2, 3, 4, 5], [0, 1, 1, 1, 0, 0], [2, 2, 2, 3, 3, 3], [1, 1, 2, 2, 2, 1],
   [5, 5, 4, 4, 4, 5], [0, 0, 0, 5, 5, 5], [4, 3, 3, 3, 4, 4], [0, 1, 2, 3, 4, 5]]

/-- Modelled from the spec: `t8_dtet_index_to_bey_number[6][8]` (ChildIdToBeyNumberTable,
3D), missing from the sources. -/
def tet_index_to_bey_number : List (List Int) :=
  [[0, 1, 4, 5, 2, 7, 6, 3], [0, 1, 5, 4, 7, 2, 6, 3], [0, 4, 5, 1, 2, 7, 6, 3],
   [0, 1, 5, 4, 6, 7, 2, 3], [0, 4, 5, 1, 6, 2, 7, 3], [0, 5, 4, 1, 6, 7, 2, 3]]

/-- Modelled from the spec: `t8_dtet_type_of_child[6][8]` (ChildTypeTable, 3D), missing
from the sources. -/
def tet_type_of_child : List (List Int) :=
  [[0, 0, 0, 0, 4, 5, 2, 1], [1, 1, 1, 1, 3, 2, 5, 0], [2, 2, 2, 2, 0, 1, 4, 3],
   [3, 3, 3, 3, 5, 4, 1, 2], [4, 4, 4, 4, 2, 3, 0, 5], [5, 5, 5, 5, 1, 0, 3, 4]]

/-- The 2D build (triangles) with maximal level `M`. -/
def triScheme (M : Nat) : Scheme where
  tet := false
  MAXLEVEL := M
  t8_dtri_cid_type_to_parenttype := rowsGet tri_cid_type_to_parenttype
  t8_dtri_index_to_bey_number := rowsGet tri_index_to_bey_number
  t8_dtri_type_of_child := rowsGet tri_type_of_child

/-- The 3D build (tetrahedra, `T8_DTRI_TO_DTET` defined) with maximal level `M`. -/
def tetScheme (M : Nat) : Scheme where
  tet := true
  MAXLEVEL := M
  t8_dtri_cid_type_to_parenttype := rowsGet tet_cid_type_to_parenttype
  t8_dtri_index_to_bey_number := rowsGet tet_index_to_bey_number
  t8_dtri_type_of_child := rowsGet tet_type_of_child

/-! ## The functions of `t8_dtri_bits.c` -/

/-- The function `compute_cubeid (t, level)`. -/
def compute_cubeid (S : Scheme) (t : t8_dtri_t) (level : Int) : Except Err Int :=
  if ¬ (0 ≤ level ∧ level ≤ S.MAXLEVEL) then .error .InvalidLevel
  else
    let h := T8_DTRI_LEN S level
    if level = 0 then .ok 0
    else
      let id : Int := 0
      let id := Int.lor id (if band t.x h ≠ 0 then 1 else 0)
      let id := Int.lor id (if band t.y h ≠ 0 then 2 else 0)
      let id := if S.tet then Int.lor id (if band t.z h ≠ 0 then 4 else 0) else id
      .ok id

/-- The function `t8_dtri_is_equal (t1, t2)`, written as in the source: the level and
the coordinates of `t1` are compared with themselves. -/
def t8_dtri_is_equal (S : Scheme) (t1 t2 : t8_dtri_t) : Bool :=
  decide (t1.level = t1.level) && decide (t1.type = t2.type) &&
    decide (t1.x = t1.x) && decide (t1.y = t1.y) &&
    (if S.tet then decide (t1.z = t1.z) else true)

/-- The function `t8_dtri_parent (t, parent)` on a memory in which `t` and `parent`
are the addresses of the two elements. -/
def t8_dtri_parent (S : Scheme) (m : Mem) (t parent : Ptr) : Except Err Mem :=
  if ¬ ((m t).level > 0) then .error .InvalidLevel
  else
    let m := if S.tet then m.write parent (fun e => { e with eclass := (m t).eclass }) else m
    let m := m.write parent (fun e => { e with level := (m t).level - 1 })
    match compute_cubeid S (m t) (m t).level with
    | .error err => .error err
    | .ok cid =>
      match tableGet S.numCubeIds S.numTypes S.t8_dtri_cid_type_to_parenttype cid (m t).type with
      | .error err => .error err
      | .ok ty =>
        let m := m.write parent (fun e => { e with type := ty })
        let h := T8_DTRI_LEN S (m t).level
        let m := m.write parent (fun e => { e with x := band (m t).x (Int.lnot h) })
        let m := m.write parent (fun e => { e with y := band (m t).y (Int.lnot h) })
        let m := if S.tet then m.write parent (fun e => { e with z := band (m t).z (Int.lnot h) })
          else m
        .ok m

/-- The function `t8_dtri_compute_coords (t, coordinates, vertex)`; the result is the
array `coordinates[T8_DTRI_DIM]` after the call. -/
def t8_dtri_compute_coords (S : Scheme) (t : t8_dtri_t) (vertex : Int) :
    Except Err (List Int) :=
  if ¬ (0 ≤ vertex ∧ vertex < S.T8_DTRI_FACES) then .error .InvalidIndex
  else
    let type := t.type
    let h := T8_DTRI_LEN S t.level
    let ei : Int := if S.tet then Int.tdiv type 2 else type
    let ej : Int := Int.tmod (ei + (if Int.tmod type 2 = 0 then 2 else 1)) 3
    let coordinates : List Int := if S.tet then [t.x, t.y, t.z] else [t.x, t.y]
    if vertex = 0 then .ok coordinates
    else
      match arrAdd coordinates ei h with
      | .error err => .error err
      | .ok coordinates =>
        if S.tet then
          if vertex = 2 then arrAdd coordinates ej h
          else if vertex = 3 then
            match arrAdd coordinates (Int.tmod (ei + 1) 3) h with
            | .error err => .error err
            | .ok coordinates => arrAdd coordinates (Int.tmod (ei + 2) 3) h
          else .ok coordinates
        else
          if vertex = 2 then arrAdd coordinates (1 - ei) h
          else .ok coordinates

/-- The function `t8_dtri_compute_all_coords (t, coordinates)`; the result is the array
`coordinates[T8_DTRI_FACES][T8_DTRI_DIM]` after the call, row by row.  The loop over
`i < T8_DTRI_DIM` fills rows 1, 2 (and 3) entry by entry from row 0, which is a
`List.map` over row 0. -/
def t8_dtri_compute_all_coords (S : Scheme) (t : t8_dtri_t) : Except Err (List (List Int)) :=
  let type := t.type
  let h := T8_DTRI_LEN S t.level
  let ei : Int := if S.tet then Int.tdiv type 2 else type
  let ej : Int := Int.tmod (ei + (if Int.tmod type 2 = 0 then 2 else 1)) 3
  let row0 : List Int := if S.tet then [t.x, t.y, t.z] else [t.x, t.y]
  let row1 : List Int := row0.map (fun c => c)
  let row2 : List Int := if S.tet then row0.map (fun c => c) else row0.map (fun c => c + h)
  let row3 : List Int := row0.map (fun c => c + h)
  match arrAdd row1 ei h with
  | .error err => .error err
  | .ok row1 =>
    if S.tet then
      match arrAdd row2 ei h with
      | .error err => .error err
      | .ok row2 =>
        match arrAdd row2 ej h with
        | .error err => .error err
        | .ok row2 => .ok [row0, row1, row2, row3]
    else .ok [row0, row1, row2]

/-- The local table `id_to_vertex` of `t8_dtri_child`. -/
def id_to_vertex (S : Scheme) : List Int :=
  if S.tet then [0, 1, 2, 3, 1, 1, 2, 2] else [0, 1, 2, 1]

/-- The function `t8_dtri_child (elem, childid, child)` on a memory in which `elem` and
`child` are the addresses of the two elements; they may be equal. -/
def t8_dtri_child (S : Scheme) (m : Mem) (elem : Ptr) (childid : Int) (child : Ptr) :
    Except Err Mem :=
  let t := elem
  let c := child
  if ¬ ((m t).level < S.MAXLEVEL) then .error .InvalidLevel
  else if ¬ (0 ≤ childid ∧ childid < S.T8_DTRI_CHILDREN) then .error .InvalidIndex
  else
    match tableGet S.numTypes S.T8_DTRI_CHILDREN S.t8_dtri_index_to_bey_number
        (m elem).type childid with
    | .error err => .error err
    | .ok Bey_cid =>
      let anchor : Except Err Mem :=
        if Bey_cid = 0 then
          let m := m.write c (fun e => { e with x := (m t).x })
          let m := m.write c (fun e => { e with y := (m t).y })
          let m := if S.tet then m.write c (fun e => { e with z := (m t).z }) else m
          .ok m
        else
          match arrGet (id_to_vertex S) Bey_cid with
          | .error err => .error err
          | .ok vertex =>
            match t8_dtri_compute_coords S (m t) vertex with
            | .error err => .error err
            | .ok t_coordinates =>
              let m := m.write c (fun e => { e with x := Int.shiftRight ((m t).x + t_coordinates.getD 0 0) 1 })
              let m := m.write c (fun e => { e with y := Int.shiftRight ((m t).y + t_coordinates.getD 1 0) 1 })
              let m := if S.tet then
                  m.write c (fun e => { e with z := Int.shiftRight ((m t).z + t_coordinates.getD 2 0) 1 })
                else m
              .ok m
      match anchor with
      | .error err => .error err
      | .ok m =>
        match tableGet S.numTypes S.T8_DTRI_CHILDREN S.t8_dtri_type_of_child (m t).type Bey_cid with
        | .error err => .error err
        | .ok ty =>
          let m := m.write c (fun e => { e with type := ty })
          let m := m.write c (fun e => { e with level := (m t).level + 1 })
          .ok m

/-- The function `t8_dtri_sibling (elem, sibid, sibling)`: parent into `sibling`, then
child with `sibling` as input and output. -/
def t8_dtri_sibling (S : Scheme) (m : Mem) (elem : Ptr) (sibid : Int) (sibling : Ptr) :
    Except Err Mem :=
  if ¬ (0 ≤ sibid ∧ sibid < S.T8_DTRI_CHILDREN) then .error .InvalidIndex
  else if ¬ ((m elem).level > 0) then .error .InvalidLevel
  else
    match t8_dtri_parent S m elem sibling with
    | .error err => .error err
    | .ok m => t8_dtri_child S m sibling sibid sibling

/-- The function `t8_dtri_face_neighbour (t, n, face)`: the memory after the call and the
returned face number.  The local array `coords[3]` has three entries in both builds; in
the 2D build the third one is never initialised nor copied to `n`, it is 0 here. -/
def t8_dtri_face_neighbour (S : Scheme) (m : Mem) (t n : Ptr) (face : Int) :
    Except Err (Mem × Int) :=
  if ¬ (0 ≤ face ∧ face < S.T8_DTRI_FACES) then .error .InvalidIndex
  else
    let level := (m t).level
    let type_old := (m t).type
    let type_new := type_old
    let coords : List Int := if S.tet then [(m t).x, (m t).y, (m t).z] else [(m t).x, (m t).y, 0]
    let body : Except Err (List Int × Int × Int) :=
      if S.tet then
        let type_new := type_new + 6
        if face = 1 ∨ face = 2 then
          let sign : Int := if Int.tmod type_new 2 = 0 then 1 else -1
          let sign := sign * (if Int.tmod face 2 = 0 then 1 else -1)
          let type_new := type_new + sign
          let type_new := Int.tmod type_new 6
          .ok (coords, type_new, face)
        else
          let step : Except Err (List Int × Int) :=
            if face = 0 then
              match arrAdd coords (Int.tdiv type_old 2) (T8_DTRI_LEN S level) with
              | .error err => .error err
              | .ok coords => .ok (coords, type_new + (if Int.tmod type_new 2 = 0 then 4 else 2))
            else
              match arrAdd coords (Int.tdiv (Int.tmod (type_new + 3) 6) 2)
                  (-(T8_DTRI_LEN S level)) with
              | .error err => .error err
              | .ok coords => .ok (coords, type_new + (if Int.tmod type_new 2 = 0 then 2 else 4))
          match step with
          | .error err => .error err
          | .ok (coords, type_new) => .ok (coords, Int.tmod type_new 6, 3 - face)
      else
        let ret := 2 - face
        let type_new := 1 - type_old
        if face = 0 then
          match arrAdd coords type_old (T8_DTRI_LEN S level) with
          | .error err => .error err
          | .ok coords => .ok (coords, type_new, ret)
        else if face = 2 then
          match arrAdd coords (1 - type_old) (-(T8_DTRI_LEN S level)) with
          | .error err => .error err
          | .ok coords => .ok (coords, type_new, ret)
        else .ok (coords, type_new, ret)
    match body with
    | .error err => .error err
    | .ok (coords, type_new, ret) =>
      let m := m.write n (fun e => { e with x := coords.getD 0 0 })
      let m := m.write n (fun e => { e with y := coords.getD 1 0 })
      let m := if S.tet then m.write n (fun e => { e with z := coords.getD 2 0 }) else m
      let m := m.write n (fun e => { e with level := level })
      let m := m.write n (fun e => { e with type := type_new })
      .ok (m, ret)

/-- The function `t8_dtri_is_sibling (t1, t2)`.  The conjunction is evaluated from left
to right and stops at the first false conjunct, as `&&` does. -/
def t8_dtri_is_sibling (S : Scheme) (t1 t2 : t8_dtri_t) : Except Err Bool :=
  if t1.level = 0 then .ok false
  else
    let exclorx := Int.xor t1.x t2.x
    let exclory := Int.xor t1.y t2.y
    let exclorz := Int.xor t1.z t2.z
    match compute_cubeid S t1 t1.level with
    | .error err => .error err
    | .ok cid1 =>
      match compute_cubeid S t2 t2.level with
      | .error err => .error err
      | .ok cid2 =>
        if ¬ (t1.level = t2.level) then .ok false
        else if ¬ (band exclorx (Int.lnot (T8_DTRI_LEN S t1.level)) = 0) then .ok false
        else if ¬ (band exclory (Int.lnot (T8_DTRI_LEN S t1.level)) = 0) then .ok false
        else if S.tet ∧ ¬ (band exclorz (Int.lnot (T8_DTRI_LEN S t1.level)) = 0) then .ok false
        else
          match tableGet S.numCubeIds S.numTypes S.t8_dtri_cid_type_to_parenttype cid1 t1.type with
          | .error err => .error err
          | .ok p1 =>
            match tableGet S.numCubeIds S.numTypes S.t8_dtri_cid_type_to_parenttype cid2
                t2.type with
            | .error err => .error err
            | .ok p2 => .ok (decide (p1 = p2) && decide (t1.type ≠ t2.type))

/-- The function `t8_dtri_is_parent (t, c)`, with the left-to-right evaluation of `&&`. -/
def t8_dtri_is_parent (S : Scheme) (t c : t8_dtri_t) : Except Err Bool :=
  match compute_cubeid S c c.level with
  | .error err => .error err
  | .ok cid =>
    if ¬ (t.level + 1 = c.level) then .ok false
    else if ¬ (t.x = band c.x (Int.lnot (T8_DTRI_LEN S c.level))) then .ok false
    else if ¬ (t.y = band c.y (Int.lnot (T8_DTRI_LEN S c.level))) then .ok false
    else if S.tet ∧ ¬ (t.z = band c.z (Int.lnot (T8_DTRI_LEN S c.level))) then .ok false
    else
      match tableGet S.numCubeIds S.numTypes S.t8_dtri_cid_type_to_parenttype cid c.type with
      | .error err => .error err
      | .ok p => .ok (decide (t.type = p) && true)

/-- The function `t8_dtri_is_ancestor (t, c)`.  After the early return the three
exclusive-ors are computed and `SC_ABORT ("Not implemented")` ends the call; the
`return` statement behind it is never reached. -/
def t8_dtri_is_ancestor (S : Scheme) (t c : t8_dtri_t) : Except Err Bool :=
  if t.level ≥ c.level then .ok false
  else
    let exclorx := Int.shiftRight (Int.xor t.x c.x) (S.MAXLEVEL - t.level).toNat
    let exclory := Int.shiftRight (Int.xor t.y c.y) (S.MAXLEVEL - t.level).toNat
    let exclorz := Int.shiftRight (Int.xor t.z c.z) (S.MAXLEVEL - t.level).toNat
    let reached : Except Err Unit := .error .UnimplementedOperation
    match reached with
    | .error err => .error err
    | .ok _ => .ok (decide (exclorx = 0) && decide (exclory = 0) &&
        (if S.tet then decide (exclorz = 0) else true))

/-! ## Calls on separate elements

Value-level views of the state transformers: the input element is stored at address 0,
the output element (with arbitrary previous contents `out`) at address 1. -/

/-- The call `t8_dtri_parent (&t, &out)` on two distinct elements: the contents of `out` after it. -/
def parentOf (S : Scheme) (t out : t8_dtri_t) : Except Err t8_dtri_t :=
  (t8_dtri_parent S (mem2 t out) 0 1).map (fun m => m 1)

/-- The call `t8_dtri_child (&t, childid, &out)` on two distinct elements: the contents of `out`
after it. -/
def childOf (S : Scheme) (t : t8_dtri_t) (childid : Int) (out : t8_dtri_t) : Except Err t8_dtri_t :=
  (t8_dtri_child S (mem2 t out) 0 childid 1).map (fun m => m 1)

/-- The call `t8_dtri_sibling (&t, sibid, &out)` on two distinct elements: the contents of `out`
after it. -/
def siblingOf (S : Scheme) (t : t8_dtri_t) (sibid : Int) (out : t8_dtri_t) : Except Err t8_dtri_t :=
  (t8_dtri_sibling S (mem2 t out) 0 sibid 1).map (fun m => m 1)

/-- The call `t8_dtri_face_neighbour (&t, &out, face)` on two distinct elements: the contents of
`out` after it and the returned face number. -/
def faceNeighbourOf (S : Scheme) (t out : t8_dtri_t) (face : Int) :
    Except Err (t8_dtri_t × Int) :=
  (t8_dtri_face_neighbour S (mem2 t out) 0 1 face).map (fun r => (r.1 1, r.2))

/-- Two elements have the same level, type and anchor; the `z` coordinate counts in the 3D
build only. -/
def sameElem (S : Scheme) (a b : t8_dtri_t) : Prop :=
  a.level = b.level ∧ a.type = b.type ∧ a.x = b.x ∧ a.y = b.y ∧ (S.tet = true → a.z = b.z)

instance (S : Scheme) (a b : t8_dtri_t) : Decidable (sameElem S a b) := by
  unfold sameElem; infer_instance

/-! ## Vectors of coordinates -/

/-- The anchor of an element as a vector of `T8_DTRI_DIM` coordinates. -/
def anchor (S : Scheme) (e : t8_dtri_t) : List Int :=
  if S.tet then [e.x, e.y, e.z] else [e.x, e.y]

/-- The unit vector `axis(k)` of length `T8_DTRI_DIM`. -/
def axis (S : Scheme) (k : Int) : List Int :=
  (List.range S.T8_DTRI_DIM).map (fun j => if (j : Int) = k then 1 else 0)

/-- Sum of two vectors. -/
def vadd (a b : List Int) : List Int := List.zipWith (fun p q => p + q) a b

/-- The vector `h * a`. -/
def smul (h : Int) (a : List Int) : List Int := a.map (fun p => h * p)

/-- The type lies in the type domain: `{0, 1}` for triangles, `{0, .., 5}` for tetrahedra. -/
def TypeOK (S : Scheme) (e : t8_dtri_t) : Prop := 0 ≤ e.type ∧ e.type < S.numTypes

instance (S : Scheme) (e : t8_dtri_t) : Decidable (TypeOK S e) := by
  unfold TypeOK; infer_instance

/-- The vertex formula as section 4.3 of the specification words it. -/
def specVertex (S : Scheme) (e : t8_dtri_t) (k : Int) : List Int :=
  let h := T8_DTRI_LEN S e.level
  let ei : Int := if S.tet then Int.tdiv e.type 2 else e.type
  let ej : Int := Int.tmod (ei + (if Int.tmod e.type 2 = 0 then 2 else 1)) 3
  if k = 0 then anchor S e
  else if k = 1 then vadd (anchor S e) (smul h (axis S ei))
  else if S.tet then
    if k = 2 then vadd (anchor S e) (smul h (axis S ej))
    else vadd (vadd (anchor S e) (smul h (axis S (Int.tmod (ei + 1) 3))))
      (smul h (axis S (Int.tmod (ei + 2) 3)))
  else vadd (anchor S e) (smul h (axis S (1 - ei)))

/-- The vertex formula the code computes: every vertex other than vertex 0 starts from
`anchor + h*axis(ei)`, and vertices 2 and 3 add their further axes to that. -/
def codeVertex (S : Scheme) (e : t8_dtri_t) (k : Int) : List Int :=
  let h := T8_DTRI_LEN S e.level
  let ei : Int := if S.tet then Int.tdiv e.type 2 else e.type
  let ej : Int := Int.tmod (ei + (if Int.tmod e.type 2 = 0 then 2 else 1)) 3
  if k = 0 then anchor S e
  else if k = 1 then vadd (anchor S e) (smul h (axis S ei))
  else if S.tet then
    if k = 2 then vadd (vadd (anchor S e) (smul h (axis S ei))) (smul h (axis S ej))
    else vadd (vadd (vadd (anchor S e) (smul h (axis S ei)))
      (smul h (axis S (Int.tmod (ei + 1) 3)))) (smul h (axis S (Int.tmod (ei + 2) 3)))
  else vadd (vadd (anchor S e) (smul h (axis S ei))) (smul h (axis S (1 - ei)))

/-- The 2D face-neighbour rule as section 4.6 of the specification words it: the returned
face is `2 - face`, the type becomes `1 - type`, for face 0 the coordinate at axis `type`
increases by `h(level)`, for face 2 the coordinate at axis `1 - type` decreases by
`h(level)`.  The fields of the output element that the rule does not mention keep the
contents `out` had before. -/
def specNeighbourTri (S : Scheme) (e out : t8_dtri_t) (face : Int) : t8_dtri_t × Int :=
  let h := T8_DTRI_LEN S e.level
  let d : Int → Int := fun a =>
    (if face = 0 ∧ e.type = a then h else 0) - (if face = 2 ∧ 1 - e.type = a then h else 0)
  ({ out with x := e.x + d 0, y := e.y + d 1, level := e.level, type := 1 - e.type }, 2 - face)

/-- The 3D face-neighbour rule as section 4.6 of the specification enumerates it, with the
mathematical `mod 6` and `/ 2`.  The fields of the output element that the rule does not
mention keep the contents `out` had before. -/
def specNeighbourTet (S : Scheme) (e out : t8_dtri_t) (face : Int) : t8_dtri_t × Int :=
  let h := T8_DTRI_LEN S e.level
  let sign : Int := (if e.type % 2 = 0 then 1 else -1) * (if face % 2 = 0 then 1 else -1)
  let d : Int → Int := fun a =>
    (if face = 0 ∧ e.type / 2 = a then h else 0) -
      (if face = 3 ∧ ((e.type + 3) % 6) / 2 = a then h else 0)
  let ty : Int :=
    if face = 1 ∨ face = 2 then (e.type + sign) % 6
    else if face = 0 then (e.type + (if e.type % 2 = 0 then 4 else 2)) % 6
    else (e.type + (if e.type % 2 = 0 then 2 else 4)) % 6
  let ret : Int := if face = 1 ∨ face = 2 then face else if face = 0 then 3 else 0
  ({ out with x := e.x + d 0, y := e.y + d 1, z := e.z + d 2, level := e.level, type := ty }, ret)

/-- The ancestor rule as section 4.7 of the specification words it: `t.level < c.level`
and, on every axis, the coordinates of `t` and `c` agree above bit position
`MAXLEVEL - t.level`, that is `(t.coord XOR c.coord) >> (MAXLEVEL - t.level)` is zero. -/
def specAncestor (S : Scheme) (t c : t8_dtri_t) : Bool :=
  decide (t.level < c.level) &&
    decide (Int.shiftRight (Int.xor t.x c.x) (S.MAXLEVEL - t.level).toNat = 0) &&
    decide (Int.shiftRight (Int.xor t.y c.y) (S.MAXLEVEL - t.level).toNat = 0) &&
    (if S.tet then decide (Int.shiftRight (Int.xor t.z c.z) (S.MAXLEVEL - t.level).toNat = 0) else true)

/-! ## Well-formed elements and closed forms used in the proofs -/

/-- A coordinate of an element of level `l`: in `[0, 2^MAXLEVEL)` and a multiple of
`h(l) = 2^(MAXLEVEL - l)`. -/
def CoordOK (S : Scheme) (l c : Int) : Prop :=
  0 ≤ c ∧ c < 2 ^ S.MAXLEVEL ∧ c % T8_DTRI_LEN S l = 0

instance (S : Scheme) (l c : Int) : Decidable (CoordOK S l c) := by
  unfold CoordOK; infer_instance

/-- A well-formed element: level in `[0, MAXLEVEL]`, type in the type domain, every anchor
coordinate in `[0, 2^MAXLEVEL)` and a multiple of `h(level)`; the `z` coordinate counts
in the 3D build only. -/
def WellFormed (S : Scheme) (e : t8_dtri_t) : Prop :=
  0 ≤ e.level ∧ e.level ≤ S.MAXLEVEL ∧ TypeOK S e ∧
    CoordOK S e.level e.x ∧ CoordOK S e.level e.y ∧ (S.tet = true → CoordOK S e.level e.z)

instance (S : Scheme) (e : t8_dtri_t) : Decidable (WellFormed S e) := by
  unfold WellFormed; infer_instance

/-- Whether vertex `v` of an element of type `ty` lies one cell length above the anchor
along axis `a` (1) or not (0): the closed form of `t8_dtri_compute_coords`. -/
def vertexBit (S : Scheme) (ty v a : Int) : Int :=
  let ei : Int := if S.tet then ty / 2 else ty
  let ej : Int := (ei + (if ty % 2 = 0 then 2 else 1)) % 3
  if v = 0 then 0
  else if v = 1 then (if a = ei then 1 else 0)
  else if v = 2 then (if S.tet then (if a = ei ∨ a = ej then 1 else 0) else 1)
  else 1

/-- Whether the anchor of the child with Bey number `bey` of an element of type `ty` lies
half a cell length above the anchor of the element along axis `a` (1) or not (0). -/
def childBit (S : Scheme) (ty bey a : Int) : Int :=
  if bey = 0 then 0 else vertexBit S ty ((id_to_vertex S).getD bey.toNat 0) a

/-- The value `compute_cubeid` returns when its assertion holds. -/
def cubeIdVal (S : Scheme) (t : t8_dtri_t) (level : Int) : Int :=
  let h := T8_DTRI_LEN S level
  if level = 0 then 0
  else
    let id : Int := 0
    let id := Int.lor id (if band t.x h ≠ 0 then 1 else 0)
    let id := Int.lor id (if band t.y h ≠ 0 then 2 else 0)
    if S.tet then Int.lor id (if band t.z h ≠ 0 then 4 else 0) else id

/-- The cube-id with bit 0, 1, 2 set according to `b0`, `b1`, `b2` (the last in 3D only). -/
def cidOfBits (tet : Bool) (b0 b1 b2 : Int) : Int :=
  let id : Int := 0
  let id := Int.lor id (if b0 ≠ 0 then 1 else 0)
  let id := Int.lor id (if b1 ≠ 0 then 2 else 0)
  if tet then Int.lor id (if b2 ≠ 0 then 4 else 0) else id

/-- The element `t8_dtri_parent` writes, given the previous contents `out` of the output. -/
def parentSpec (S : Scheme) (e out : t8_dtri_t) : t8_dtri_t :=
  let h := T8_DTRI_LEN S e.level
  { x := band e.x (Int.lnot h)
    y := band e.y (Int.lnot h)
    z := if S.tet then band e.z (Int.lnot h) else out.z
    level := e.level - 1
    type := S.t8_dtri_cid_type_to_parenttype (cubeIdVal S e e.level).toNat e.type.toNat
    eclass := if S.tet then e.eclass else out.eclass }

/-- The element `t8_dtri_child` writes on a well-formed element, given the previous
contents `out` of the output: the anchor moves by half a cell length along the axes
selected by `childBit`. -/
def childSpec (S : Scheme) (e : t8_dtri_t) (childid : Int) (out : t8_dtri_t) : t8_dtri_t :=
  let bey := S.t8_dtri_index_to_bey_number e.type.toNat childid.toNat
  let h := T8_DTRI_LEN S (e.level + 1)
  { x := e.x + childBit S e.type bey 0 * h
    y := e.y + childBit S e.type bey 1 * h
    z := if S.tet then e.z + childBit S e.type bey 2 * h else out.z
    level := e.level + 1
    type := S.t8_dtri_type_of_child e.type.toNat bey.toNat
    eclass := out.eclass }

/-- The finite check on the tables behind the round trip: for every type and child index
the Bey number and the child type are in range, and the parent-type table maps the
child's cube-id and type back to the type of the element. -/
def tablesRoundTrip (S : Scheme) : Bool :=
  (List.range S.numTypes).all fun ty => (List.range S.T8_DTRI_CHILDREN).all fun i =>
    let bey := S.t8_dtri_index_to_bey_number ty i
    let cty := S.t8_dtri_type_of_child ty bey.toNat
    decide (0 ≤ bey ∧ bey < S.T8_DTRI_CHILDREN ∧ 0 ≤ cty ∧ cty < S.numTypes ∧
      S.t8_dtri_cid_type_to_parenttype
        (cidOfBits S.tet (childBit S ty bey 0) (childBit S ty bey 1) (childBit S ty bey 2)).toNat
        cty.toNat = ty)

/-- What `t8_dtri_parent (t, parent)` leaves in `*parent` when `t` and `parent` are
distinct elements, as a function of the element `t` and of the previous contents `out`
of `*parent` (theorem `parent_mem`). -/
def parentRes (S : Scheme) (t out : t8_dtri_t) : Except Err t8_dtri_t :=
  if ¬ (t.level > 0) then .error .InvalidLevel
  else
    match compute_cubeid S t t.level with
    | .error err => .error err
    | .ok cid =>
      match tableGet S.numCubeIds S.numTypes S.t8_dtri_cid_type_to_parenttype cid t.type with
      | .error err => .error err
      | .ok ty =>
        .ok { x := band t.x (Int.lnot (T8_DTRI_LEN S t.level))
              y := band t.y (Int.lnot (T8_DTRI_LEN S t.level))
              z := if S.tet then band t.z (Int.lnot (T8_DTRI_LEN S t.level)) else out.z
              level := t.level - 1
              type := ty
              eclass := if S.tet then t.eclass else out.eclass }

/-- The anchor `t8_dtri_child` computes for the child with Bey number `Bey_cid` of the
element `t`; the third component is used in the 3D build only. -/
def childAnchor (S : Scheme) (t : t8_dtri_t) (Bey_cid : Int) : Except Err (Int × Int × Int) :=
  if Bey_cid = 0 then .ok (t.x, t.y, t.z)
  else
    match arrGet (id_to_vertex S) Bey_cid with
    | .error err => .error err
    | .ok vertex =>
      match t8_dtri_compute_coords S t vertex with
      | .error err => .error err
      | .ok t_coordinates =>
        .ok (Int.shiftRight (t.x + t_coordinates.getD 0 0) 1,
          Int.shiftRight (t.y + t_coordinates.getD 1 0) 1,
          Int.shiftRight (t.z + t_coordinates.getD 2 0) 1)

/-- What `t8_dtri_child (elem, childid, child)` leaves in `*child`, as a function of the
element `t = *elem` and of the previous contents `out` of `*child`, whether or not the
two pointers are equal (theorem `child_mem`). -/
def childRes (S : Scheme) (t : t8_dtri_t) (childid : Int) (out : t8_dtri_t) :
    Except Err t8_dtri_t :=
  if ¬ (t.level < S.MAXLEVEL) then .error .InvalidLevel
  else if ¬ (0 ≤ childid ∧ childid < S.T8_DTRI_CHILDREN) then .error .InvalidIndex
  else
    match tableGet S.numTypes S.T8_DTRI_CHILDREN S.t8_dtri_index_to_bey_number t.type childid with
    | .error err => .error err
    | .ok Bey_cid =>
      match childAnchor S t Bey_cid with
      | .error err => .error err
      | .ok a =>
        match tableGet S.numTypes S.T8_DTRI_CHILDREN S.t8_dtri_type_of_child t.type Bey_cid with
        | .error err => .error err
        | .ok ty =>
          .ok { x := a.1
                y := a.2.1
                z := if S.tet then a.2.2 else out.z
                level := t.level + 1
                type := ty
                eclass := out.eclass }

/-- Two outcomes agree: both are the same failure, or both are elements with the same
level, type and anchor. -/
def sameOutcome (S : Scheme) : Except Err t8_dtri_t → Except Err t8_dtri_t → Prop
  | .ok a, .ok b => sameElem S a b
  | .error e1, .error e2 => e1 = e2
  | _, _ => False

/-- The type `t8_dtri_parent` gives to the parent of `e`: the entry of the parent-type
table at the cube-id and the type of `e`. -/
def parentType (S : Scheme) (e : t8_dtri_t) : Int :=
  S.t8_dtri_cid_type_to_parenttype (cubeIdVal S e e.level).toNat e.type.toNat

/-- The value `t8_dtri_is_sibling` returns on elements with levels in `[0, MAXLEVEL]` and
types in the type domain (theorem `is_sibling_eq`). -/
def siblingVal (S : Scheme) (a b : t8_dtri_t) : Bool :=
  decide (a.level ≠ 0) && decide (a.level = b.level) &&
    decide (band (Int.xor a.x b.x) (Int.lnot (T8_DTRI_LEN S a.level)) = 0) &&
    decide (band (Int.xor a.y b.y) (Int.lnot (T8_DTRI_LEN S a.level)) = 0) &&
    (!S.tet || decide (band (Int.xor a.z b.z) (Int.lnot (T8_DTRI_LEN S a.level)) = 0)) &&
    decide (parentType S a = parentType S b) && decide (a.type ≠ b.type)

/-- The value `t8_dtri_is_parent` returns when the level of `c` lies in `[0, MAXLEVEL]`
and its type in the type domain (theorem `is_parent_eq`). -/
def parentVal (S : Scheme) (t c : t8_dtri_t) : Bool :=
  decide (t.level + 1 = c.level) &&
    decide (t.x = band c.x (Int.lnot (T8_DTRI_LEN S c.level))) &&
    decide (t.y = band c.y (Int.lnot (T8_DTRI_LEN S c.level))) &&
    (!S.tet || decide (t.z = band c.z (Int.lnot (T8_DTRI_LEN S c.level)))) &&
    decide (t.type = parentType S c)

/-- The data-model invariant on level and anchor: level in `[0, MAXLEVEL]`, every anchor
coordinate in `[0, 2^MAXLEVEL)` and a multiple of `h(level)`; the `z` coordinate counts in
the 3D build only. -/
def AnchorOK (S : Scheme) (e : t8_dtri_t) : Prop :=
  0 ≤ e.level ∧ e.level ≤ S.MAXLEVEL ∧
    CoordOK S e.level e.x ∧ CoordOK S e.level e.y ∧ (S.tet = true → CoordOK S e.level e.z)

instance (S : Scheme) (e : t8_dtri_t) : Decidable (AnchorOK S e) := by
  unfold AnchorOK; infer_instance

/-- The finite check that every entry of the parent-type table is a type. -/
def tablesParentRange (S : Scheme) : Bool :=
  (List.range S.numCubeIds).all fun cid => (List.range S.numTypes).all fun ty =>
    decide (0 ≤ S.t8_dtri_cid_type_to_parenttype cid ty ∧
      S.t8_dtri_cid_type_to_parenttype cid ty < S.numTypes)

/-- A coordinate of a face neighbour of an element of level `l`: a multiple of `h(l)` in
`[-h(l), 2^MAXLEVEL]`, that is at most one cell outside `[0, 2^MAXLEVEL)`. -/
def NeighbourCoordOK (S : Scheme) (l c : Int) : Prop :=
  -(T8_DTRI_LEN S l) ≤ c ∧ c ≤ 2 ^ S.MAXLEVEL ∧ c % T8_DTRI_LEN S l = 0

instance (S : Scheme) (l c : Int) : Decidable (NeighbourCoordOK S l c) := by
  unfold NeighbourCoordOK; infer_instance

/-! ## Theorems -/

theorem compute_coords_eq_codeVertex (S : Scheme) (e : t8_dtri_t) (k : Int)
    (hty : TypeOK S e) (hk : 0 ≤ k ∧ k < S.T8_DTRI_FACES) :
    t8_dtri_compute_coords S e k = .ok (codeVertex S e k) := by
  obtain ⟨x, y, z, level, type, eclass⟩ := e
  obtain ⟨tet, M, t1, t2, t3⟩ := S
  obtain ⟨hk0, hk1⟩ := hk
  obtain ⟨ht0, ht1⟩ := hty
  simp only [Scheme.numTypes, Scheme.T8_DTRI_FACES] at ht1 hk1
  cases tet
  · simp only [Bool.false_eq_true, if_false] at ht1 hk1
    norm_cast at ht1 hk1
    simp only [t8_dtri_compute_coords, codeVertex]
    generalize T8_DTRI_LEN _ _ = h
    interval_cases type <;> interval_cases k <;>
      simp [arrAdd, anchor, axis, vadd, smul, Int.tdiv_eq_ediv, Int.tmod_eq_emod,
        Scheme.T8_DTRI_FACES, Scheme.T8_DTRI_DIM, List.range, List.range.loop]
  · simp only [if_true] at ht1 hk1
    norm_cast at ht1 hk1
    simp only [t8_dtri_compute_coords, codeVertex]
    generalize T8_DTRI_LEN _ _ = h
    interval_cases type <;> interval_cases k <;>
      simp [arrAdd, anchor, axis, vadd, smul, Int.tdiv_eq_ediv, Int.tmod_eq_emod,
        Scheme.T8_DTRI_FACES, Scheme.T8_DTRI_DIM, List.range, List.range.loop]

theorem compute_all_coords_eq (S : Scheme) (e : t8_dtri_t) (hty : TypeOK S e) :
    t8_dtri_compute_all_coords S e =
      .ok ((List.range S.T8_DTRI_FACES).map (fun (k : Nat) => codeVertex S e (k : Int))) := by
  obtain ⟨x, y, z, level, type, eclass⟩ := e
  obtain ⟨tet, M, t1, t2, t3⟩ := S
  obtain ⟨ht0, ht1⟩ := hty
  simp only [Scheme.numTypes] at ht1
  cases tet
  · simp only [Bool.false_eq_true, if_false] at ht1
    norm_cast at ht1
    simp only [t8_dtri_compute_all_coords, codeVertex]
    generalize T8_DTRI_LEN _ _ = h
    interval_cases type <;>
      simp [arrAdd, anchor, axis, vadd, smul, Int.tdiv_eq_ediv, Int.tmod_eq_emod,
        Scheme.T8_DTRI_FACES, Scheme.T8_DTRI_DIM, List.range, List.range.loop]
  · simp only [if_true] at ht1
    norm_cast at ht1
    simp only [t8_dtri_compute_all_coords, codeVertex]
    generalize T8_DTRI_LEN _ _ = h
    interval_cases type <;>
      simp [arrAdd, anchor, axis, vadd, smul, Int.tdiv_eq_ediv, Int.tmod_eq_emod,
        Scheme.T8_DTRI_FACES, Scheme.T8_DTRI_DIM, List.range, List.range.loop]

/-! ### C2: the equality predicate -/

theorem is_equal_eq_type_test (S : Scheme) (t1 t2 : t8_dtri_t) :
    t8_dtri_is_equal S t1 t2 = decide (t1.type = t2.type) := by
  cases htet : S.tet <;> simp [t8_dtri_is_equal, htet]

/-- C2 (evaluation at the failing inputs): the triangle root and its child 0 differ in
their level only; the children 0 and 1 of the root, `{level 1, type 0, anchor (0, 0)}`
and `{level 1, type 0, anchor (2^28, 0)}`, differ in `x` only, and so do the children 0
and 1 of the tetrahedron root; on each pair `t8_dtri_is_equal` returns true, because it
compares the level and the coordinates of its first argument with themselves. -/
theorem C2_is_equal_differing_level :
    t8_dtri_is_equal (triScheme 29) ⟨0, 0, 0, 0, 0, 0⟩ ⟨0, 0, 0, 1, 0, 0⟩ = true ∧
    t8_dtri_is_equal (triScheme 29) ⟨0, 0, 0, 1, 0, 0⟩ ⟨2 ^ 28, 0, 0, 1, 0, 0⟩ = true ∧
    t8_dtri_is_equal (tetScheme 21) ⟨0, 0, 0, 1, 0, 0⟩ ⟨2 ^ 20, 0, 0, 1, 0, 0⟩ = true := by
  decide

/-! ### C3: the vertex formula -/

/-- C3 (counterexample): on the triangle root of type 0 the code returns
`(2^29, 2^29)` for vertex 2, where the formula of the specification,
`anchor + h*axis(1-ei)`, gives `(0, 2^29)`; on the tetrahedron root of type 0 the code
returns `(h, 0, h)` for vertex 2 and `(h, h, h)` for vertex 3 with `h = 2^21`, where the
specified formulas give `(0, 0, h)` and `(0, h, h)`. -/
theorem C3_vertex_formula_counterexample :
    t8_dtri_compute_coords (triScheme 29) ⟨0, 0, 0, 0, 0, 0⟩ 2 ≠
      .ok (specVertex (triScheme 29) ⟨0, 0, 0, 0, 0, 0⟩ 2) ∧
    t8_dtri_compute_coords (triScheme 29) ⟨0, 0, 0, 0, 0, 0⟩ 2 = .ok [2 ^ 29, 2 ^ 29] ∧
    specVertex (triScheme 29) ⟨0, 0, 0, 0, 0, 0⟩ 2 = [0, 2 ^ 29] ∧
    t8_dtri_compute_coords (tetScheme 21) ⟨0, 0, 0, 0, 0, 0⟩ 2 = .ok [2 ^ 21, 0, 2 ^ 21] ∧
    specVertex (tetScheme 21) ⟨0, 0, 0, 0, 0, 0⟩ 2 = [0, 0, 2 ^ 21] ∧
    t8_dtri_compute_coords (tetScheme 21) ⟨0, 0, 0, 0, 0, 0⟩ 3 = .ok [2 ^ 21, 2 ^ 21, 2 ^ 21] ∧
    specVertex (tetScheme 21) ⟨0, 0, 0, 0, 0, 0⟩ 3 = [0, 2 ^ 21, 2 ^ 21] := by
  refine ⟨?_, ?_, ?_, ?_, ?_, ?_, ?_⟩
  · intro h
    have h1 : t8_dtri_compute_coords (triScheme 29) ⟨0, 0, 0, 0, 0, 0⟩ 2 =
        .ok [2 ^ 29, 2 ^ 29] := rfl
    have h2 : specVertex (triScheme 29) ⟨0, 0, 0, 0, 0, 0⟩ 2 = [0, 2 ^ 29] := rfl
    rw [h1, h2] at h
    injection h with h
    revert h
    decide
  all_goals rfl

/-- C3 (amended): for every element whose type lies in the type domain and every vertex
index `k` in `[0, numVertices)`, `t8_dtri_compute_coords (e, k)` returns, with
`h = T8_DTRI_LEN (level)`: the anchor for `k = 0`; `anchor + h*axis(ei)` for `k = 1`;
for a triangle `anchor + h*axis(ei) + h*axis(1-ei)` for `k = 2`; for a tetrahedron
`anchor + h*axis(ei) + h*axis(ej)` for `k = 2` and
`anchor + h*axis(ei) + h*axis((ei+1)%3) + h*axis((ei+2)%3)` for `k = 3`. -/
theorem C3_compute_coords_formula (S : Scheme) (e : t8_dtri_t) (k : Int)
    (hty : TypeOK S e) (hk : 0 ≤ k ∧ k < S.T8_DTRI_FACES) :
    t8_dtri_compute_coords S e k = .ok (codeVertex S e k) :=
  compute_coords_eq_codeVertex S e k hty hk

/-- C3 (witness): vertex 2 of the tetrahedron `{level 1, type 3, anchor (2^20, 0, 2^20)}`
with `MAXLEVEL = 21`. -/
theorem C3_compute_coords_formula_witness :
    TypeOK (tetScheme 21) ⟨2 ^ 20, 0, 2 ^ 20, 1, 3, 0⟩ ∧
    ((0 : Int) ≤ 2 ∧ (2 : Int) < (tetScheme 21).T8_DTRI_FACES) ∧
    t8_dtri_compute_coords (tetScheme 21) ⟨2 ^ 20, 0, 2 ^ 20, 1, 3, 0⟩ 2 =
      .ok (codeVertex (tetScheme 21) ⟨2 ^ 20, 0, 2 ^ 20, 1, 3, 0⟩ 2) :=
  ⟨by decide, by decide,
    C3_compute_coords_formula (tetScheme 21) ⟨2 ^ 20, 0, 2 ^ 20, 1, 3, 0⟩ 2 (by decide) (by decide)⟩

/-! ### C4: batch and per-vertex coordinates -/

/-- C4: for every element whose type lies in the type domain, in both builds,
`t8_dtri_compute_all_coords` returns `T8_DTRI_FACES` rows, and for every vertex index `k`
row `k` is exactly the array that `t8_dtri_compute_coords (e, k)` returns. -/
theorem C4_all_coords_agree (S : Scheme) (e : t8_dtri_t) (hty : TypeOK S e) :
    ∃ rows : List (List Int), t8_dtri_compute_all_coords S e = .ok rows ∧
      rows.length = S.T8_DTRI_FACES ∧
      ∀ k : Nat, k < S.T8_DTRI_FACES →
        t8_dtri_compute_coords S e (k : Int) = .ok (rows.getD k []) := by
  refine ⟨_, compute_all_coords_eq S e hty, by simp, ?_⟩
  intro k hk
  rw [compute_coords_eq_codeVertex S e k hty ⟨by omega, by exact_mod_cast hk⟩]
  simp [List.getD, hk]

/-- C4 (witness): the tetrahedron `{level 1, type 3, anchor (2^20, 0, 2^20)}` with
`MAXLEVEL = 21`. -/
theorem C4_all_coords_agree_witness :
    TypeOK (tetScheme 21) ⟨2 ^ 20, 0, 2 ^ 20, 1, 3, 0⟩ ∧
    ∃ rows : List (List Int),
      t8_dtri_compute_all_coords (tetScheme 21) ⟨2 ^ 20, 0, 2 ^ 20, 1, 3, 0⟩ = .ok rows ∧
      rows.length = (tetScheme 21).T8_DTRI_FACES ∧
      ∀ k : Nat, k < (tetScheme 21).T8_DTRI_FACES →
        t8_dtri_compute_coords (tetScheme 21) ⟨2 ^ 20, 0, 2 ^ 20, 1, 3, 0⟩ (k : Int) =
          .ok (rows.getD k []) :=
  ⟨by decide, C4_all_coords_agree (tetScheme 21) ⟨2 ^ 20, 0, 2 ^ 20, 1, 3, 0⟩ (by decide)⟩

/-! ### The face neighbour in closed form -/

theorem faceNeighbourOf_tri (S : Scheme) (e out : t8_dtri_t) (f : Int) (hS : S.tet = false)
    (hty : TypeOK S e) (hf : 0 ≤ f ∧ f < S.T8_DTRI_FACES) :
    faceNeighbourOf S e out f = .ok (specNeighbourTri S e out f) := by
  obtain ⟨x, y, z, level, type, eclass⟩ := e
  obtain ⟨tet, M, t1, t2, t3⟩ := S
  obtain ⟨hf0, hf1⟩ := hf
  obtain ⟨ht0, ht1⟩ := hty
  simp only at hS
  subst hS
  simp only [Scheme.numTypes, Scheme.T8_DTRI_FACES, Bool.false_eq_true, if_false] at ht1 hf1
  norm_cast at ht1 hf1
  simp only [faceNeighbourOf, t8_dtri_face_neighbour, specNeighbourTri, mem2, if_true]
  generalize T8_DTRI_LEN _ _ = h
  interval_cases type <;> interval_cases f <;>
    simp [arrAdd, mem2, Mem.write, Scheme.T8_DTRI_FACES, Except.map]

theorem faceNeighbourOf_tet (S : Scheme) (e out : t8_dtri_t) (f : Int) (hS : S.tet = true)
    (hty : TypeOK S e) (hf : 0 ≤ f ∧ f < S.T8_DTRI_FACES) :
    faceNeighbourOf S e out f = .ok (specNeighbourTet S e out f) := by
  obtain ⟨x, y, z, level, type, eclass⟩ := e
  obtain ⟨tet, M, t1, t2, t3⟩ := S
  obtain ⟨hf0, hf1⟩ := hf
  obtain ⟨ht0, ht1⟩ := hty
  simp only at hS
  subst hS
  simp only [Scheme.numTypes, Scheme.T8_DTRI_FACES, if_true] at ht1 hf1
  norm_cast at ht1 hf1
  simp only [faceNeighbourOf, t8_dtri_face_neighbour, specNeighbourTet, mem2, if_true]
  generalize T8_DTRI_LEN _ _ = h
  interval_cases type <;> interval_cases f <;>
    simp [arrAdd, mem2, Mem.write, Scheme.T8_DTRI_FACES, Except.map, Int.tdiv_eq_ediv,
      Int.tmod_eq_emod]

theorem specNeighbourTri_involution (S : Scheme) (e out1 out2 : t8_dtri_t) (f : Int)
    (hS : S.tet = false) (hty : TypeOK S e) (hf : 0 ≤ f ∧ f < S.T8_DTRI_FACES) :
    TypeOK S (specNeighbourTri S e out1 f).1 ∧
    (0 ≤ (specNeighbourTri S e out1 f).2 ∧ (specNeighbourTri S e out1 f).2 < S.T8_DTRI_FACES) ∧
    sameElem S (specNeighbourTri S (specNeighbourTri S e out1 f).1 out2
      (specNeighbourTri S e out1 f).2).1 e ∧
    (specNeighbourTri S (specNeighbourTri S e out1 f).1 out2
      (specNeighbourTri S e out1 f).2).2 = f := by
  obtain ⟨x, y, z, level, type, eclass⟩ := e
  obtain ⟨tet, M, t1, t2, t3⟩ := S
  obtain ⟨hf0, hf1⟩ := hf
  obtain ⟨ht0, ht1⟩ := hty
  simp only at hS
  subst hS
  simp only [Scheme.numTypes, Scheme.T8_DTRI_FACES, Bool.false_eq_true, if_false] at ht1 hf1
  norm_cast at ht1 hf1
  simp only [specNeighbourTri, sameElem, TypeOK]
  generalize T8_DTRI_LEN _ _ = h
  interval_cases type <;> interval_cases f <;>
    simp [Scheme.T8_DTRI_FACES, Scheme.numTypes]

theorem specNeighbourTet_involution (S : Scheme) (e out1 out2 : t8_dtri_t) (f : Int)
    (hS : S.tet = true) (hty : TypeOK S e) (hf : 0 ≤ f ∧ f < S.T8_DTRI_FACES) :
    TypeOK S (specNeighbourTet S e out1 f).1 ∧
    (0 ≤ (specNeighbourTet S e out1 f).2 ∧ (specNeighbourTet S e out1 f).2 < S.T8_DTRI_FACES) ∧
    sameElem S (specNeighbourTet S (specNeighbourTet S e out1 f).1 out2
      (specNeighbourTet S e out1 f).2).1 e ∧
    (specNeighbourTet S (specNeighbourTet S e out1 f).1 out2
      (specNeighbourTet S e out1 f).2).2 = f := by
  obtain ⟨x, y, z, level, type, eclass⟩ := e
  obtain ⟨tet, M, t1, t2, t3⟩ := S
  obtain ⟨hf0, hf1⟩ := hf
  obtain ⟨ht0, ht1⟩ := hty
  simp only at hS
  subst hS
  simp only [Scheme.numTypes, Scheme.T8_DTRI_FACES, if_true] at ht1 hf1
  norm_cast at ht1 hf1
  simp only [specNeighbourTet, sameElem, TypeOK]
  generalize T8_DTRI_LEN _ _ = h
  interval_cases type <;> interval_cases f <;>
    simp [Scheme.T8_DTRI_FACES, Scheme.numTypes]

/-! ### C5: face-neighbour involution in 2D -/

/-- C5: in the 2D build, for every triangle `e` with type in `{0, 1}` and every face
`f` in `{0, 1, 2}`, `t8_dtri_face_neighbour (e, f)` returns an element `n` and a face `f2`,
`t8_dtri_face_neighbour (n, f2)` returns an element `e2` and a face `f3`, `e2` has the
level, type and anchor of `e`, and `f3 = f`. -/
theorem C5_face_neighbour_involution_2D (S : Scheme) (e out1 out2 : t8_dtri_t) (f : Int)
    (hS : S.tet = false) (hty : TypeOK S e) (hf : 0 ≤ f ∧ f < S.T8_DTRI_FACES) :
    ∃ n f2 e2 f3, faceNeighbourOf S e out1 f = .ok (n, f2) ∧
      faceNeighbourOf S n out2 f2 = .ok (e2, f3) ∧ sameElem S e2 e ∧ f3 = f := by
  obtain ⟨hn, hf2, hsame, hret⟩ := specNeighbourTri_involution S e out1 out2 f hS hty hf
  exact ⟨_, _, _, _, faceNeighbourOf_tri S e out1 f hS hty hf,
    faceNeighbourOf_tri S _ out2 _ hS hn hf2, hsame, hret⟩

/-- C5 (witness): the triangle `{level 1, type 1, anchor (0, 2^28)}` with `MAXLEVEL = 29`
and face 2. -/
theorem C5_face_neighbour_involution_2D_witness :
    (triScheme 29).tet = false ∧ TypeOK (triScheme 29) ⟨0, 2 ^ 28, 0, 1, 1, 0⟩ ∧
    ((0 : Int) ≤ 2 ∧ (2 : Int) < (triScheme 29).T8_DTRI_FACES) ∧
    ∃ n f2 e2 f3,
      faceNeighbourOf (triScheme 29) ⟨0, 2 ^ 28, 0, 1, 1, 0⟩ ⟨0, 0, 0, 0, 0, 0⟩ 2 = .ok (n, f2) ∧
      faceNeighbourOf (triScheme 29) n ⟨0, 0, 0, 0, 0, 0⟩ f2 = .ok (e2, f3) ∧
      sameElem (triScheme 29) e2 ⟨0, 2 ^ 28, 0, 1, 1, 0⟩ ∧ f3 = 2 :=
  ⟨rfl, by decide, by decide,
    C5_face_neighbour_involution_2D (triScheme 29) ⟨0, 2 ^ 28, 0, 1, 1, 0⟩ ⟨0, 0, 0, 0, 0, 0⟩
      ⟨0, 0, 0, 0, 0, 0⟩ 2 rfl (by decide) (by decide)⟩

/-! ### C6: the 3D transition rule -/

/-- C6: in the 3D build, for every tetrahedron `e` with type in `{0..5}` and every face in
`{0, 1, 2, 3}`, `t8_dtri_face_neighbour (e, face)` returns exactly the element and the
face number that the enumerated rule of section 4.6 prescribes (`specNeighbourTet`):
for faces 1 and 2 the anchor is unchanged, the returned face is `face` and the type is
`(type + sign) mod 6`; for face 0 the coordinate at axis `type/2` grows by `h(level)`, the
type is `(type + (4 if type even else 2)) mod 6` and the returned face is 3; for face 3 the
coordinate at axis `((type+3) mod 6)/2` shrinks by `h(level)`, the type is
`(type + (2 if type even else 4)) mod 6` and the returned face is 0; the level and all
other coordinates are those of `e`. -/
theorem C6_face_neighbour_rule_3D (S : Scheme) (e out : t8_dtri_t) (face : Int)
    (hS : S.tet = true) (hty : TypeOK S e) (hf : 0 ≤ face ∧ face < S.T8_DTRI_FACES) :
    faceNeighbourOf S e out face = .ok (specNeighbourTet S e out face) :=
  faceNeighbourOf_tet S e out face hS hty hf

/-- C6 (witness): the tetrahedron `{level 2, type 0, anchor (2^19, 2^19, 0)}` with
`MAXLEVEL = 21` and face 3. -/
theorem C6_face_neighbour_rule_3D_witness :
    (tetScheme 21).tet = true ∧ TypeOK (tetScheme 21) ⟨2 ^ 19, 2 ^ 19, 0, 2, 0, 0⟩ ∧
    ((0 : Int) ≤ 3 ∧ (3 : Int) < (tetScheme 21).T8_DTRI_FACES) ∧
    faceNeighbourOf (tetScheme 21) ⟨2 ^ 19, 2 ^ 19, 0, 2, 0, 0⟩ ⟨0, 0, 0, 0, 0, 0⟩ 3 =
      .ok (specNeighbourTet (tetScheme 21) ⟨2 ^ 19, 2 ^ 19, 0, 2, 0, 0⟩ ⟨0, 0, 0, 0, 0, 0⟩ 3) :=
  ⟨rfl, by decide, by decide,
    C6_face_neighbour_rule_3D (tetScheme 21) ⟨2 ^ 19, 2 ^ 19, 0, 2, 0, 0⟩ ⟨0, 0, 0, 0, 0, 0⟩ 3
      rfl (by decide) (by decide)⟩

/-! ### C7: face-neighbour involution in 3D -/

/-- C7: in the 3D build, for every tetrahedron `e` with type in `{0..5}` and every face
`f` in `{0, 1, 2, 3}`, the neighbour `n` across `f` and the returned face `f2` exist, the
neighbour of `n` across `f2` exists, has the level, type and anchor of `e`, and the face
returned with it is `f`. -/
theorem C7_face_neighbour_involution_3D (S : Scheme) (e out1 out2 : t8_dtri_t) (f : Int)
    (hS : S.tet = true) (hty : TypeOK S e) (hf : 0 ≤ f ∧ f < S.T8_DTRI_FACES) :
    ∃ n f2 e2 f3, faceNeighbourOf S e out1 f = .ok (n, f2) ∧
      faceNeighbourOf S n out2 f2 = .ok (e2, f3) ∧ sameElem S e2 e ∧ f3 = f := by
  obtain ⟨hn, hf2, hsame, hret⟩ := specNeighbourTet_involution S e out1 out2 f hS hty hf
  exact ⟨_, _, _, _, faceNeighbourOf_tet S e out1 f hS hty hf,
    faceNeighbourOf_tet S _ out2 _ hS hn hf2, hsame, hret⟩

/-- C7 (witness): scenario B, the tetrahedron `{level 2, type 3, anchor (h, 0, h)}` with
`h = 2^(MAXLEVEL-2)`, `MAXLEVEL = 21`, and face 0; the face returned by the first call
is 3. -/
theorem C7_face_neighbour_involution_3D_witness :
    (tetScheme 21).tet = true ∧ TypeOK (tetScheme 21) ⟨2 ^ 19, 0, 2 ^ 19, 2, 3, 0⟩ ∧
    ((0 : Int) ≤ 0 ∧ (0 : Int) < (tetScheme 21).T8_DTRI_FACES) ∧
    (faceNeighbourOf (tetScheme 21) ⟨2 ^ 19, 0, 2 ^ 19, 2, 3, 0⟩ ⟨0, 0, 0, 0, 0, 0⟩ 0 =
      .ok (⟨2 ^ 19, 2 ^ 19, 2 ^ 19, 2, 5, 0⟩, 3)) ∧
    ∃ n f2 e2 f3,
      faceNeighbourOf (tetScheme 21) ⟨2 ^ 19, 0, 2 ^ 19, 2, 3, 0⟩ ⟨0, 0, 0, 0, 0, 0⟩ 0 =
        .ok (n, f2) ∧
      faceNeighbourOf (tetScheme 21) n ⟨0, 0, 0, 0, 0, 0⟩ f2 = .ok (e2, f3) ∧
      sameElem (tetScheme 21) e2 ⟨2 ^ 19, 0, 2 ^ 19, 2, 3, 0⟩ ∧ f3 = 0 :=
  ⟨rfl, by decide, by decide, rfl,
    C7_face_neighbour_involution_3D (tetScheme 21) ⟨2 ^ 19, 0, 2 ^ 19, 2, 3, 0⟩
      ⟨0, 0, 0, 0, 0, 0⟩ ⟨0, 0, 0, 0, 0, 0⟩ 0 rfl (by decide) (by decide)⟩

/-! ### C8, C9: the ancestor predicate -/

theorem is_ancestor_of_ge (S : Scheme) (t c : t8_dtri_t) (h : t.level ≥ c.level) :
    t8_dtri_is_ancestor S t c = .ok false := by
  simp [t8_dtri_is_ancestor, h]

theorem is_ancestor_of_lt (S : Scheme) (t c : t8_dtri_t) (h : t.level < c.level) :
    t8_dtri_is_ancestor S t c = .error .UnimplementedOperation := by
  have h' : ¬ (t.level ≥ c.level) := by omega
  simp [t8_dtri_is_ancestor, h']

theorem specAncestor_of_ge (S : Scheme) (t c : t8_dtri_t) (h : t.level ≥ c.level) :
    specAncestor S t c = false := by
  have h' : ¬ (t.level < c.level) := by omega
  simp [specAncestor, h']

/-- C8 (counterexample): the triangle root is, by the rule of section 4.7, an ancestor of
its child 3 `{level 1, type 0, anchor (2^28, 2^28)}`, and of the tetrahedron
`{level 1, type 0, anchor (2^20, 0, 0)}` in 3D; on both inputs `t8_dtri_is_ancestor` does
not return true, it stops at `SC_ABORT ("Not implemented")`. -/
theorem C8_is_ancestor_counterexample :
    specAncestor (triScheme 29) ⟨0, 0, 0, 0, 0, 0⟩ ⟨2 ^ 28, 2 ^ 28, 0, 1, 0, 0⟩ = true ∧
    t8_dtri_is_ancestor (triScheme 29) ⟨0, 0, 0, 0, 0, 0⟩ ⟨2 ^ 28, 2 ^ 28, 0, 1, 0, 0⟩ =
      .error .UnimplementedOperation ∧
    specAncestor (tetScheme 21) ⟨0, 0, 0, 0, 0, 0⟩ ⟨2 ^ 20, 0, 0, 1, 0, 0⟩ = true ∧
    t8_dtri_is_ancestor (tetScheme 21) ⟨0, 0, 0, 0, 0, 0⟩ ⟨2 ^ 20, 0, 0, 1, 0, 0⟩ =
      .error .UnimplementedOperation :=
  ⟨by decide, rfl, by decide, rfl⟩

/-- C8 (amended): for all elements `t` and `c`, `t8_dtri_is_ancestor (t, c)` returns a
value exactly when `t.level >= c.level`; the value it then returns is false, which is
the value of the rule of section 4.7 on these inputs; and the outcome (the value, or
the abort) does not depend on the type of either element. -/
theorem C8_is_ancestor_returns_iff_not_coarser (S : Scheme) (t c : t8_dtri_t) :
    ((∃ b, t8_dtri_is_ancestor S t c = .ok b) ↔ t.level ≥ c.level) ∧
    (∀ b, t8_dtri_is_ancestor S t c = .ok b → b = false ∧ b = specAncestor S t c) ∧
    (∀ ty1 ty2 : Int, t8_dtri_is_ancestor S { t with type := ty1 } { c with type := ty2 } =
      t8_dtri_is_ancestor S t c) := by
  refine ⟨?_, ?_, ?_⟩
  · constructor
    · rintro ⟨b, hb⟩
      by_contra hlt
      rw [is_ancestor_of_lt S t c (by omega)] at hb
      cases hb
    · intro hge
      exact ⟨false, is_ancestor_of_ge S t c hge⟩
  · intro b hb
    by_cases hge : t.level ≥ c.level
    · rw [is_ancestor_of_ge S t c hge] at hb
      cases hb
      exact ⟨rfl, (specAncestor_of_ge S t c hge).symm⟩
    · rw [is_ancestor_of_lt S t c (by omega)] at hb
      cases hb
  · intro ty1 ty2
    simp [t8_dtri_is_ancestor]

/-- C9: for all elements `t` and `c`, `t8_dtri_is_ancestor (t, c)` returns false
without failing when `t.level >= c.level`, fails with the "Not implemented" abort when
`t.level < c.level`, never returns true, and whenever it returns a value that value is
the one the containment rule of section 4.7 prescribes. -/
theorem C9_is_ancestor_fails_or_agrees (S : Scheme) (t c : t8_dtri_t) :
    (t.level ≥ c.level → t8_dtri_is_ancestor S t c = .ok false) ∧
    (t.level < c.level → t8_dtri_is_ancestor S t c = .error .UnimplementedOperation) ∧
    t8_dtri_is_ancestor S t c ≠ .ok true ∧
    (t8_dtri_is_ancestor S t c = .error .UnimplementedOperation ∨
      t8_dtri_is_ancestor S t c = .ok (specAncestor S t c)) := by
  refine ⟨is_ancestor_of_ge S t c, is_ancestor_of_lt S t c, ?_, ?_⟩
  · by_cases hge : t.level ≥ c.level
    · rw [is_ancestor_of_ge S t c hge]
      simp
    · rw [is_ancestor_of_lt S t c (by omega)]
      simp
  · by_cases hge : t.level ≥ c.level
    · right
      rw [is_ancestor_of_ge S t c hge, specAncestor_of_ge S t c hge]
    · left
      exact is_ancestor_of_lt S t c (by omega)

/-! ### Bit arithmetic -/

theorem nat_ldiff_eq (m n : Nat) : Nat.ldiff m n = m ^^^ (m &&& n) := by
  apply Nat.eq_of_testBit_eq
  intro i
  rw [Nat.testBit_ldiff, Nat.testBit_xor, Nat.testBit_and]
  cases m.testBit i <;> cases n.testBit i <;> rfl

theorem band_eq_land (a b : Int) : band a b = Int.land a b := by
  cases a <;> cases b <;> simp [band, Int.land, nat_ldiff_eq]

theorem testBit_block (q k d j : Nat) (hd : d ≤ 1) :
    (2 ^ (k + 1) * q + d * 2 ^ k).testBit j =
      if j < k + 1 then (decide (d = 1) && decide (j = k)) else q.testBit (j - (k + 1)) := by
  have hlt : d * 2 ^ k < 2 ^ (k + 1) := by
    have : 0 < 2 ^ k := Nat.two_pow_pos k
    rw [pow_succ]
    interval_cases d <;> omega
  rw [Nat.testBit_mul_pow_two_add q hlt j]
  split
  · interval_cases d
    · simp
    · simp [Nat.testBit_two_pow]
      constructor <;> intro h <;> exact h.symm
  · rfl

theorem nat_and_block (q k d : Nat) (hd : d ≤ 1) :
    (2 ^ (k + 1) * q + d * 2 ^ k) &&& 2 ^ k = d * 2 ^ k := by
  rw [Nat.and_two_pow, testBit_block q k d k hd]
  interval_cases d <;> simp

theorem nat_clear_block (q k d : Nat) (hd : d ≤ 1) :
    (2 ^ (k + 1) * q + d * 2 ^ k) ^^^ ((2 ^ (k + 1) * q + d * 2 ^ k) &&& 2 ^ k) =
      2 ^ (k + 1) * q := by
  apply Nat.eq_of_testBit_eq
  intro j
  have h0 := testBit_block q k 0 j (by decide)
  simp only [Nat.zero_mul, Nat.add_zero] at h0
  rw [Nat.testBit_xor, Nat.testBit_and, testBit_block q k d j hd, h0, Nat.testBit_two_pow]
  by_cases hj : j < k + 1
  · by_cases hjk : j = k
    · subst hjk; interval_cases d <;> simp
    · have : ¬ k = j := fun h => hjk h.symm
      simp [hj, hjk, this]
  · have : ¬ k = j := by omega
    simp [hj, this]


theorem band_block (k q : Nat) (b : Int) (hb : b = 0 ∨ b = 1) :
    band ((2 : Int) ^ (k + 1) * q + b * 2 ^ k) (2 ^ k) = b * 2 ^ k ∧
    band ((2 : Int) ^ (k + 1) * q + b * 2 ^ k) (Int.lnot (2 ^ k)) = (2 : Int) ^ (k + 1) * q := by
  obtain ⟨d, hd, rfl⟩ : ∃ d : Nat, d ≤ 1 ∧ b = (d : Int) := by
    rcases hb with rfl | rfl
    · exact ⟨0, by decide, rfl⟩
    · exact ⟨1, by decide, rfl⟩
  have e1 : ((2 : Int) ^ (k + 1) * q + (d : Int) * 2 ^ k) =
      Int.ofNat (2 ^ (k + 1) * q + d * 2 ^ k) := by
    simp
  have e2 : ((2 : Int) ^ k) = Int.ofNat (2 ^ k) := by simp
  have e3 : Int.lnot (Int.ofNat (2 ^ k)) = Int.negSucc (2 ^ k) := rfl
  rw [e1, e2, e3]
  simp only [band]
  rw [nat_clear_block q k d hd, nat_and_block q k d hd]
  simp

theorem len_succ (S : Scheme) (l : Int) (h1 : l < S.MAXLEVEL) :
    ∃ k : Nat, T8_DTRI_LEN S (l + 1) = 2 ^ k ∧ T8_DTRI_LEN S l = 2 ^ (k + 1) := by
  refine ⟨(S.MAXLEVEL - (l + 1)).toNat, rfl, ?_⟩
  unfold T8_DTRI_LEN
  congr 1
  omega

theorem coordOK_decompose (S : Scheme) (l c : Int) (k : Nat)
    (hl : T8_DTRI_LEN S l = 2 ^ (k + 1)) (hc : CoordOK S l c) :
    ∃ q : Nat, c = (2 : Int) ^ (k + 1) * q := by
  obtain ⟨hc0, -, hmod⟩ := hc
  rw [hl] at hmod
  obtain ⟨r, hr⟩ := Int.dvd_of_emod_eq_zero hmod
  have hpos : (0 : Int) < 2 ^ (k + 1) := by positivity
  have hr0 : 0 ≤ r := by
    by_contra hneg
    have : (2 : Int) ^ (k + 1) * r < 0 := Int.mul_neg_of_pos_of_neg hpos (by omega)
    omega
  exact ⟨r.toNat, by rw [Int.toNat_of_nonneg hr0]; exact hr⟩

/-- Where the anchor of a child lies: the facts about one coordinate. -/
theorem coord_child (S : Scheme) (l c b : Int) (h1 : l < S.MAXLEVEL)
    (hc : CoordOK S l c) (hb : b = 0 ∨ b = 1) :
    Int.shiftRight (c + (c + b * T8_DTRI_LEN S l)) 1 = c + b * T8_DTRI_LEN S (l + 1) ∧
    band (c + b * T8_DTRI_LEN S (l + 1)) (T8_DTRI_LEN S (l + 1)) = b * T8_DTRI_LEN S (l + 1) ∧
    band (c + b * T8_DTRI_LEN S (l + 1)) (Int.lnot (T8_DTRI_LEN S (l + 1))) = c ∧
    0 < T8_DTRI_LEN S (l + 1) := by
  obtain ⟨k, hk1, hk⟩ := len_succ S l h1
  obtain ⟨q, rfl⟩ := coordOK_decompose S l c k hk hc
  rw [hk1, hk]
  obtain ⟨hb1, hb2⟩ := band_block k q b hb
  refine ⟨?_, hb1, hb2, by positivity⟩
  show (_ : Int) >>> (1 : Nat) = _
  rw [Int.shiftRight_eq_div_pow]
  have : (2 : Int) ^ (k + 1) * q + (2 ^ (k + 1) * q + b * 2 ^ (k + 1)) =
      2 * ((2 : Int) ^ (k + 1) * q + b * 2 ^ k) := by ring
  rw [this]
  simp

/-! ### Parent and child in closed form -/

theorem compute_cubeid_eq (S : Scheme) (t : t8_dtri_t) (l : Int) (h0 : 0 ≤ l)
    (h1 : l ≤ S.MAXLEVEL) : compute_cubeid S t l = .ok (cubeIdVal S t l) := by
  unfold compute_cubeid cubeIdVal
  have : (0 ≤ l ∧ l ≤ S.MAXLEVEL) := ⟨h0, h1⟩
  simp only [this, not_true_eq_false, if_false]
  by_cases hl : l = 0
  · simp [hl]
  · simp only [hl, if_false]
    cases S.tet <;> simp

theorem cubeIdVal_range (S : Scheme) (t : t8_dtri_t) (l : Int) :
    0 ≤ cubeIdVal S t l ∧ cubeIdVal S t l < S.numCubeIds := by
  unfold cubeIdVal Scheme.numCubeIds
  cases S.tet <;> simp only [Bool.false_eq_true, if_false, if_true] <;>
    split_ifs <;> decide

theorem parentOf_eq (S : Scheme) (e out : t8_dtri_t) (h0 : 0 < e.level)
    (h1 : e.level ≤ S.MAXLEVEL) (hty : TypeOK S e) :
    parentOf S e out = .ok (parentSpec S e out) := by
  obtain ⟨hc0, hc1⟩ := cubeIdVal_range S e e.level
  obtain ⟨ht0, ht1⟩ := hty
  have hcid := compute_cubeid_eq S e e.level (by omega) h1
  unfold parentOf t8_dtri_parent
  cases htet : S.tet <;>
    simp [mem2, Mem.write, hcid, tableGet, hc0, hc1, ht0, ht1, h0, parentSpec, Except.map, htet]


theorem vertexBit_range (S : Scheme) (ty v a : Int) :
    vertexBit S ty v a = 0 ∨ vertexBit S ty v a = 1 := by
  unfold vertexBit
  simp only []
  split_ifs <;> simp

theorem childBit_range (S : Scheme) (ty bey a : Int) :
    childBit S ty bey a = 0 ∨ childBit S ty bey a = 1 := by
  unfold childBit
  split_ifs
  · exact Or.inl rfl
  · exact vertexBit_range S ty _ a

theorem compute_coords_bits (S : Scheme) (e : t8_dtri_t) (v : Int)
    (hty : TypeOK S e) (hv : 0 ≤ v ∧ v < S.T8_DTRI_FACES) :
    t8_dtri_compute_coords S e v = .ok
      (if S.tet then
        [e.x + vertexBit S e.type v 0 * T8_DTRI_LEN S e.level,
         e.y + vertexBit S e.type v 1 * T8_DTRI_LEN S e.level,
         e.z + vertexBit S e.type v 2 * T8_DTRI_LEN S e.level]
       else
        [e.x + vertexBit S e.type v 0 * T8_DTRI_LEN S e.level,
         e.y + vertexBit S e.type v 1 * T8_DTRI_LEN S e.level]) := by
  obtain ⟨x, y, z, level, type, eclass⟩ := e
  obtain ⟨tet, M, t1, t2, t3⟩ := S
  obtain ⟨hv0, hv1⟩ := hv
  obtain ⟨ht0, ht1⟩ := hty
  simp only [Scheme.numTypes, Scheme.T8_DTRI_FACES] at ht1 hv1
  cases tet
  · simp only [Bool.false_eq_true, if_false] at ht1 hv1
    norm_cast at ht1 hv1
    simp only [t8_dtri_compute_coords, vertexBit]
    generalize T8_DTRI_LEN _ _ = h
    interval_cases type <;> interval_cases v <;>
      simp [arrAdd, Int.tdiv_eq_ediv, Int.tmod_eq_emod, Scheme.T8_DTRI_FACES]
  · simp only [if_true] at ht1 hv1
    norm_cast at ht1 hv1
    simp only [t8_dtri_compute_coords, vertexBit]
    generalize T8_DTRI_LEN _ _ = h
    interval_cases type <;> interval_cases v <;>
      simp [arrAdd, Int.tdiv_eq_ediv, Int.tmod_eq_emod, Scheme.T8_DTRI_FACES]

theorem id_to_vertex_range (S : Scheme) (bey : Int) (hb : 0 ≤ bey ∧ bey < S.T8_DTRI_CHILDREN) :
    arrGet (id_to_vertex S) bey = .ok ((id_to_vertex S).getD bey.toNat 0) ∧
    0 ≤ (id_to_vertex S).getD bey.toNat 0 ∧
    (id_to_vertex S).getD bey.toNat 0 < S.T8_DTRI_FACES := by
  obtain ⟨hb0, hb1⟩ := hb
  obtain ⟨tet, M, t1, t2, t3⟩ := S
  unfold arrGet id_to_vertex Scheme.T8_DTRI_FACES
  unfold Scheme.T8_DTRI_CHILDREN at hb1
  cases tet
  · simp only [Bool.false_eq_true, if_false] at hb1 ⊢
    norm_cast at hb1
    interval_cases bey <;> simp
  · simp only [if_true] at hb1 ⊢
    norm_cast at hb1
    interval_cases bey <;> simp


theorem childOf_eq (S : Scheme) (e out : t8_dtri_t) (i : Int) (hwf : WellFormed S e)
    (hl : e.level < S.MAXLEVEL) (hi : 0 ≤ i ∧ i < S.T8_DTRI_CHILDREN)
    (hbey : 0 ≤ S.t8_dtri_index_to_bey_number e.type.toNat i.toNat ∧
      S.t8_dtri_index_to_bey_number e.type.toNat i.toNat < S.T8_DTRI_CHILDREN) :
    childOf S e i out = .ok (childSpec S e i out) := by
  obtain ⟨hl0, -, hty, hx, hy, hz⟩ := hwf
  obtain ⟨ht0, ht1⟩ := hty
  obtain ⟨hi0, hi1⟩ := hi
  obtain ⟨hb0, hb1⟩ := hbey
  unfold childOf t8_dtri_child childSpec
  generalize hbey : S.t8_dtri_index_to_bey_number e.type.toNat i.toNat = bey at hb0 hb1 ⊢
  have hget1 : tableGet S.numTypes S.T8_DTRI_CHILDREN S.t8_dtri_index_to_bey_number e.type i =
      .ok bey := by
    simp [tableGet, ht0, ht1, hi0, hi1, hbey]
  have hget2 : tableGet S.numTypes S.T8_DTRI_CHILDREN S.t8_dtri_type_of_child e.type bey =
      .ok (S.t8_dtri_type_of_child e.type.toNat bey.toNat) := by
    simp [tableGet, ht0, ht1, hb0, hb1]
  by_cases hz0 : bey = 0
  · subst hz0
    cases htet : S.tet <;>
      simp [mem2, Mem.write, hget1, hget2, hl, hi0, hi1, childBit, Except.map, htet]
  · obtain ⟨hv, hv0, hv1⟩ := id_to_vertex_range S bey ⟨hb0, hb1⟩
    have hcc := compute_coords_bits S e _ ⟨ht0, ht1⟩ ⟨hv0, hv1⟩
    have cx := (coord_child S e.level e.x _ hl hx (childBit_range S e.type bey 0)).1
    have cy := (coord_child S e.level e.y _ hl hy (childBit_range S e.type bey 1)).1
    simp only [childBit, hz0, if_false] at cx cy ⊢
    simp only [List.getD_eq_getElem?_getD] at hv hcc cx cy ⊢
    cases htet : S.tet
    · simp only [htet, Bool.false_eq_true, if_false] at hcc
      simp [mem2, Mem.write, hget1, hget2, hl, hi0, hi1, hz0, Except.map, htet, hv, hcc, cx, cy]
    · have cz := (coord_child S e.level e.z _ hl (hz htet) (childBit_range S e.type bey 2)).1
      simp only [childBit, hz0, if_false, List.getD_eq_getElem?_getD] at cz
      simp only [htet, if_true] at hcc
      simp [mem2, Mem.write, hget1, hget2, hl, hi0, hi1, hz0, Except.map, htet, hv, hcc, cx, cy, cz]

/-! ### The round trip -/

theorem tablesRoundTrip_apply (S : Scheme) (hS : tablesRoundTrip S = true) (ty i : Int)
    (hty : 0 ≤ ty ∧ ty < S.numTypes) (hi : 0 ≤ i ∧ i < S.T8_DTRI_CHILDREN) :
    (0 ≤ S.t8_dtri_index_to_bey_number ty.toNat i.toNat ∧
      S.t8_dtri_index_to_bey_number ty.toNat i.toNat < S.T8_DTRI_CHILDREN) ∧
    (0 ≤ S.t8_dtri_type_of_child ty.toNat (S.t8_dtri_index_to_bey_number ty.toNat i.toNat).toNat ∧
      S.t8_dtri_type_of_child ty.toNat (S.t8_dtri_index_to_bey_number ty.toNat i.toNat).toNat
        < S.numTypes) ∧
    S.t8_dtri_cid_type_to_parenttype
      (cidOfBits S.tet
        (childBit S ty (S.t8_dtri_index_to_bey_number ty.toNat i.toNat) 0)
        (childBit S ty (S.t8_dtri_index_to_bey_number ty.toNat i.toNat) 1)
        (childBit S ty (S.t8_dtri_index_to_bey_number ty.toNat i.toNat) 2)).toNat
      (S.t8_dtri_type_of_child ty.toNat
        (S.t8_dtri_index_to_bey_number ty.toNat i.toNat).toNat).toNat = ty := by
  unfold tablesRoundTrip at hS
  rw [List.all_eq_true] at hS
  have h1 := hS ty.toNat (List.mem_range.mpr (by omega))
  rw [List.all_eq_true] at h1
  have h2 := h1 i.toNat (List.mem_range.mpr (by omega))
  simp only [decide_eq_true_eq] at h2
  have hcast : ((ty.toNat : Nat) : Int) = ty := Int.toNat_of_nonneg hty.1
  rw [hcast] at h2
  obtain ⟨a, b, c, d, e⟩ := h2
  exact ⟨⟨a, b⟩, ⟨c, d⟩, e⟩

theorem cubeIdVal_child (S : Scheme) (e out : t8_dtri_t) (i : Int) (hwf : WellFormed S e)
    (hl : e.level < S.MAXLEVEL) :
    cubeIdVal S (childSpec S e i out) (e.level + 1) =
      cidOfBits S.tet
        (childBit S e.type (S.t8_dtri_index_to_bey_number e.type.toNat i.toNat) 0)
        (childBit S e.type (S.t8_dtri_index_to_bey_number e.type.toNat i.toNat) 1)
        (childBit S e.type (S.t8_dtri_index_to_bey_number e.type.toNat i.toNat) 2) := by
  obtain ⟨hl0, -, -, hx, hy, hz⟩ := hwf
  obtain ⟨-, cx, -, hpos⟩ := coord_child S e.level e.x _ hl hx
    (childBit_range S e.type (S.t8_dtri_index_to_bey_number e.type.toNat i.toNat) 0)
  obtain ⟨-, cy, -, -⟩ := coord_child S e.level e.y _ hl hy
    (childBit_range S e.type (S.t8_dtri_index_to_bey_number e.type.toNat i.toNat) 1)
  have hne : e.level + 1 ≠ 0 := by omega
  have hmul : ∀ b : Int, (b * T8_DTRI_LEN S (e.level + 1) ≠ 0) ↔ b ≠ 0 := by
    intro b
    have : T8_DTRI_LEN S (e.level + 1) ≠ 0 := by omega
    simp [this]
  cases htet : S.tet
  · simp only [cubeIdVal, cidOfBits, childSpec, hne, if_false, cx, cy, hmul, htet,
      Bool.false_eq_true]
  · obtain ⟨-, cz, -, -⟩ := coord_child S e.level e.z _ hl (hz htet)
      (childBit_range S e.type (S.t8_dtri_index_to_bey_number e.type.toNat i.toNat) 2)
    simp only [cubeIdVal, cidOfBits, childSpec, hne, if_false, cx, cy, cz, hmul, htet, if_true]

theorem roundTrip_of_tables (S : Scheme) (hS : tablesRoundTrip S = true)
    (e out1 out2 : t8_dtri_t) (i : Int) (hwf : WellFormed S e) (hl : e.level < S.MAXLEVEL)
    (hi : 0 ≤ i ∧ i < S.T8_DTRI_CHILDREN) :
    ∃ c p, childOf S e i out1 = .ok c ∧ parentOf S c out2 = .ok p ∧ sameElem S p e := by
  obtain ⟨hbey, hcty, htab⟩ := tablesRoundTrip_apply S hS e.type i hwf.2.2.1 hi
  have hc := childOf_eq S e out1 i hwf hl hi hbey
  have hp := parentOf_eq S (childSpec S e i out1) out2
    (by show 0 < e.level + 1; have := hwf.1; omega)
    (by show e.level + 1 ≤ S.MAXLEVEL; omega) hcty
  refine ⟨_, _, hc, hp, ?_⟩
  have hcid := cubeIdVal_child S e out1 i hwf hl
  obtain ⟨hl0, -, -, hx, hy, hz⟩ := hwf
  have cx := (coord_child S e.level e.x _ hl hx
    (childBit_range S e.type (S.t8_dtri_index_to_bey_number e.type.toNat i.toNat) 0)).2.2.1
  have cy := (coord_child S e.level e.y _ hl hy
    (childBit_range S e.type (S.t8_dtri_index_to_bey_number e.type.toNat i.toNat) 1)).2.2.1
  refine ⟨?_, ?_, ?_, ?_, ?_⟩
  · show e.level + 1 - 1 = e.level
    omega
  · show S.t8_dtri_cid_type_to_parenttype
      (cubeIdVal S (childSpec S e i out1) (e.level + 1)).toNat _ = e.type
    rw [hcid]
    exact htab
  · exact cx
  · exact cy
  · intro htet
    have cz := (coord_child S e.level e.z _ hl (hz htet)
      (childBit_range S e.type (S.t8_dtri_index_to_bey_number e.type.toNat i.toNat) 2)).2.2.1
    simp only [parentSpec, childSpec, htet, if_true]
    exact cz


theorem tablesRoundTrip_tri_zero : tablesRoundTrip (triScheme 0) = true := by decide

theorem tablesRoundTrip_tri (M : Nat) : tablesRoundTrip (triScheme M) = true :=
  Eq.trans (rfl : tablesRoundTrip (triScheme M) = tablesRoundTrip (triScheme 0))
    tablesRoundTrip_tri_zero

theorem tablesRoundTrip_tet_zero : tablesRoundTrip (tetScheme 0) = true := by decide

theorem tablesRoundTrip_tet (M : Nat) : tablesRoundTrip (tetScheme M) = true :=
  Eq.trans (rfl : tablesRoundTrip (tetScheme M) = tablesRoundTrip (tetScheme 0))
    tablesRoundTrip_tet_zero

/-! ### C1: parent after child -/

/-- C1: in both builds, with the constant tables of the refinement scheme and any
`MAXLEVEL`, for every well-formed element `e` with `level < MAXLEVEL` and every child
index `i` in `[0, numChildren)`, `t8_dtri_child (e, i)` returns an element `c`,
`t8_dtri_parent (c)` returns an element `p`, and `p` has the level, type and anchor
coordinates of `e`. -/
theorem C1_parent_of_child (M : Nat) (S : Scheme) (hS : S = triScheme M ∨ S = tetScheme M)
    (e out1 out2 : t8_dtri_t) (i : Int) (hwf : WellFormed S e) (hl : e.level < S.MAXLEVEL)
    (hi : 0 ≤ i ∧ i < S.T8_DTRI_CHILDREN) :
    ∃ c p, childOf S e i out1 = .ok c ∧ parentOf S c out2 = .ok p ∧ sameElem S p e := by
  rcases hS with rfl | rfl
  · exact roundTrip_of_tables _ (tablesRoundTrip_tri M) e out1 out2 i hwf hl hi
  · exact roundTrip_of_tables _ (tablesRoundTrip_tet M) e out1 out2 i hwf hl hi

/-- C1 (witness): scenario A, the 2D root `{level 0, type 0, anchor (0, 0)}` with
`MAXLEVEL = 29` and the child indices 0, 1, 2, 3; the four children are
`{type 0, (0, 0)}`, `{type 0, (2^28, 0)}`, `{type 1, (2^28, 0)}` and
`{type 0, (2^28, 2^28)}`, all of level 1. -/
theorem C1_parent_of_child_witness :
    WellFormed (triScheme 29) ⟨0, 0, 0, 0, 0, 0⟩ ∧
    (⟨0, 0, 0, 0, 0, 0⟩ : t8_dtri_t).level < (triScheme 29).MAXLEVEL ∧
    (childOf (triScheme 29) ⟨0, 0, 0, 0, 0, 0⟩ 0 ⟨0, 0, 0, 0, 0, 0⟩ = .ok ⟨0, 0, 0, 1, 0, 0⟩ ∧
      childOf (triScheme 29) ⟨0, 0, 0, 0, 0, 0⟩ 1 ⟨0, 0, 0, 0, 0, 0⟩ = .ok ⟨2 ^ 28, 0, 0, 1, 0, 0⟩ ∧
      childOf (triScheme 29) ⟨0, 0, 0, 0, 0, 0⟩ 2 ⟨0, 0, 0, 0, 0, 0⟩ = .ok ⟨2 ^ 28, 0, 0, 1, 1, 0⟩ ∧
      childOf (triScheme 29) ⟨0, 0, 0, 0, 0, 0⟩ 3 ⟨0, 0, 0, 0, 0, 0⟩ =
        .ok ⟨2 ^ 28, 2 ^ 28, 0, 1, 0, 0⟩) ∧
    (∃ c p, childOf (triScheme 29) ⟨0, 0, 0, 0, 0, 0⟩ 0 ⟨0, 0, 0, 0, 0, 0⟩ = .ok c ∧
      parentOf (triScheme 29) c ⟨0, 0, 0, 0, 0, 0⟩ = .ok p ∧
      sameElem (triScheme 29) p ⟨0, 0, 0, 0, 0, 0⟩) ∧
    (∃ c p, childOf (triScheme 29) ⟨0, 0, 0, 0, 0, 0⟩ 1 ⟨0, 0, 0, 0, 0, 0⟩ = .ok c ∧
      parentOf (triScheme 29) c ⟨0, 0, 0, 0, 0, 0⟩ = .ok p ∧
      sameElem (triScheme 29) p ⟨0, 0, 0, 0, 0, 0⟩) ∧
    (∃ c p, childOf (triScheme 29) ⟨0, 0, 0, 0, 0, 0⟩ 2 ⟨0, 0, 0, 0, 0, 0⟩ = .ok c ∧
      parentOf (triScheme 29) c ⟨0, 0, 0, 0, 0, 0⟩ = .ok p ∧
      sameElem (triScheme 29) p ⟨0, 0, 0, 0, 0, 0⟩) ∧
    (∃ c p, childOf (triScheme 29) ⟨0, 0, 0, 0, 0, 0⟩ 3 ⟨0, 0, 0, 0, 0, 0⟩ = .ok c ∧
      parentOf (triScheme 29) c ⟨0, 0, 0, 0, 0, 0⟩ = .ok p ∧
      sameElem (triScheme 29) p ⟨0, 0, 0, 0, 0, 0⟩) :=
  ⟨by decide, by decide, ⟨rfl, rfl, rfl, rfl⟩,
    C1_parent_of_child 29 (triScheme 29) (Or.inl rfl) ⟨0, 0, 0, 0, 0, 0⟩ ⟨0, 0, 0, 0, 0, 0⟩
      ⟨0, 0, 0, 0, 0, 0⟩ 0 (by decide) (by decide) (by decide),
    C1_parent_of_child 29 (triScheme 29) (Or.inl rfl) ⟨0, 0, 0, 0, 0, 0⟩ ⟨0, 0, 0, 0, 0, 0⟩
      ⟨0, 0, 0, 0, 0, 0⟩ 1 (by decide) (by decide) (by decide),
    C1_parent_of_child 29 (triScheme 29) (Or.inl rfl) ⟨0, 0, 0, 0, 0, 0⟩ ⟨0, 0, 0, 0, 0, 0⟩
      ⟨0, 0, 0, 0, 0, 0⟩ 2 (by decide) (by decide) (by decide),
    C1_parent_of_child 29 (triScheme 29) (Or.inl rfl) ⟨0, 0, 0, 0, 0, 0⟩ ⟨0, 0, 0, 0, 0, 0⟩
      ⟨0, 0, 0, 0, 0, 0⟩ 3 (by decide) (by decide) (by decide)⟩

/-! ### Calls through memory and their value forms -/

theorem Mem.write_apply (m : Mem) (p : Ptr) (f : t8_dtri_t → t8_dtri_t) (q : Ptr) :
    (m.write p f) q = if q = p then f (m q) else m q := rfl

theorem parent_mem (S : Scheme) (m : Mem) (t p : Ptr) (htp : t ≠ p) :
    (t8_dtri_parent S m t p).map (fun m => m p) = parentRes S (m t) (m p) := by
  unfold t8_dtri_parent parentRes
  by_cases hl : (m t).level > 0
  · cases htet : S.tet <;>
      simp only [hl, not_true_eq_false, if_false, if_true, Mem.write_apply, htp, htet,
        Bool.false_eq_true] <;>
      cases compute_cubeid S (m t) (m t).level <;> simp only [Except.map] <;>
      cases tableGet S.numCubeIds S.numTypes S.t8_dtri_cid_type_to_parenttype _ (m t).type <;>
      simp [Mem.write_apply, htp]
  · simp [hl, Except.map]

theorem child_mem (S : Scheme) (m : Mem) (t c : Ptr) (childid : Int) :
    (t8_dtri_child S m t childid c).map (fun m => m c) = childRes S (m t) childid (m c) := by
  unfold t8_dtri_child childRes
  dsimp only
  by_cases hl : (m t).level < S.MAXLEVEL
  · by_cases hi : (0 ≤ childid ∧ childid < S.T8_DTRI_CHILDREN)
    · simp only [hl, hi, not_true_eq_false, if_false]
      cases tableGet S.numTypes S.T8_DTRI_CHILDREN S.t8_dtri_index_to_bey_number (m t).type
        childid with
      | error err => simp [Except.map]
      | ok bey =>
        dsimp only
        simp only [childAnchor]
        by_cases hb : bey = 0
        · by_cases htc : t = c
          · subst htc
            cases htet : S.tet <;>
              simp only [hb, if_true, Mem.write_apply, htet, Bool.false_eq_true, if_false] <;>
              cases tableGet S.numTypes S.T8_DTRI_CHILDREN S.t8_dtri_type_of_child (m t).type 0 <;>
              simp [Except.map, Mem.write_apply]
          · cases htet : S.tet <;>
              simp only [hb, if_true, Mem.write_apply, htet, Bool.false_eq_true, if_false, htc] <;>
              cases tableGet S.numTypes S.T8_DTRI_CHILDREN S.t8_dtri_type_of_child (m t).type 0 <;>
              simp [Except.map, Mem.write_apply, htc]
        · simp only [hb, if_false]
          cases arrGet (id_to_vertex S) bey with
          | error err => simp [Except.map]
          | ok v =>
            dsimp only
            cases t8_dtri_compute_coords S (m t) v with
            | error err => simp [Except.map]
            | ok co =>
              dsimp only
              by_cases htc : t = c
              · subst htc
                cases htet : S.tet <;>
                  simp only [Mem.write_apply, htet, Bool.false_eq_true, if_false, if_true] <;>
                  cases tableGet S.numTypes S.T8_DTRI_CHILDREN S.t8_dtri_type_of_child
                    (m t).type bey <;>
                  simp [Except.map, Mem.write_apply]
              · cases htet : S.tet <;>
                  simp only [Mem.write_apply, htet, Bool.false_eq_true, if_false, if_true, htc] <;>
                  cases tableGet S.numTypes S.T8_DTRI_CHILDREN S.t8_dtri_type_of_child
                    (m t).type bey <;>
                  simp [Except.map, Mem.write_apply, htc]
    · simp [hl, hi, Except.map]
  · simp [hl, Except.map]


theorem parentOf_eq_parentRes (S : Scheme) (e out : t8_dtri_t) :
    parentOf S e out = parentRes S e out :=
  parent_mem S (mem2 e out) 0 1 (by decide)

theorem childOf_eq_childRes (S : Scheme) (e out : t8_dtri_t) (i : Int) :
    childOf S e i out = childRes S e i out :=
  child_mem S (mem2 e out) 0 1 i

theorem siblingOf_eq (S : Scheme) (e out : t8_dtri_t) (b : Int)
    (hb : 0 ≤ b ∧ b < S.T8_DTRI_CHILDREN) (hl : e.level > 0) :
    siblingOf S e b out = (parentRes S e out).bind (fun p => childRes S p b p) := by
  have hp := parent_mem S (mem2 e out) 0 1 (by decide)
  have hm0 : mem2 e out 0 = e := rfl
  have hm1 : mem2 e out 1 = out := rfl
  rw [hm0, hm1] at hp
  unfold siblingOf t8_dtri_sibling
  simp only [hb, hm0, hl, not_true_eq_false, if_false, and_self]
  cases hpar : t8_dtri_parent S (mem2 e out) 0 1 with
  | error err =>
    rw [hpar] at hp
    rw [← hp]
    rfl
  | ok m1 =>
    rw [hpar] at hp
    rw [← hp]
    exact child_mem S m1 1 1 b

theorem compute_coords_congr (S : Scheme) (a b : t8_dtri_t) (h : sameElem S a b) (v : Int) :
    t8_dtri_compute_coords S a v = t8_dtri_compute_coords S b v := by
  obtain ⟨hl, ht, hx, hy, hz⟩ := h
  unfold t8_dtri_compute_coords
  rw [hl, ht, hx, hy]
  cases htet : S.tet
  · simp only [Bool.false_eq_true, if_false]
  · rw [hz htet]

theorem childRes_congr (S : Scheme) (a b o o' : t8_dtri_t) (h : sameElem S a b) (i : Int) :
    sameOutcome S (childRes S a i o) (childRes S b i o') := by
  have hcc := compute_coords_congr S a b h
  obtain ⟨hl, ht, hx, hy, hz⟩ := h
  unfold childRes childAnchor
  rw [hl, ht]
  by_cases h1 : b.level < S.MAXLEVEL
  · by_cases h2 : (0 ≤ i ∧ i < S.T8_DTRI_CHILDREN)
    · simp only [h1, h2, not_true_eq_false, if_false]
      cases tableGet S.numTypes S.T8_DTRI_CHILDREN S.t8_dtri_index_to_bey_number b.type i with
      | error err => simp [sameOutcome]
      | ok bey =>
        dsimp only
        by_cases hb : bey = 0
        · simp only [hb, if_true]
          cases tableGet S.numTypes S.T8_DTRI_CHILDREN S.t8_dtri_type_of_child b.type 0 with
          | error err => simp [sameOutcome]
          | ok ty =>
            simp only [not_true_eq_false, if_false, sameOutcome, sameElem, hx, hy]
            refine ⟨rfl, rfl, rfl, rfl, ?_⟩
            intro htet
            simp [htet, hz htet]
        · simp only [hb, if_false]
          cases arrGet (id_to_vertex S) bey with
          | error err => simp [sameOutcome]
          | ok v =>
            dsimp only
            rw [hcc v]
            cases t8_dtri_compute_coords S b v with
            | error err => simp [sameOutcome]
            | ok co =>
              dsimp only
              cases tableGet S.numTypes S.T8_DTRI_CHILDREN S.t8_dtri_type_of_child b.type bey with
              | error err => simp [sameOutcome]
              | ok ty =>
                simp only [not_true_eq_false, if_false, sameOutcome, sameElem, hx, hy]
                refine ⟨rfl, rfl, rfl, rfl, ?_⟩
                intro htet
                simp [htet, hz htet]
    · simp [h1, h2, sameOutcome]
  · simp [h1, sameOutcome]

theorem parentRes_out (S : Scheme) (e out out' : t8_dtri_t) :
    (∃ err, parentRes S e out = .error err ∧ parentRes S e out' = .error err) ∨
    (∃ p p', parentRes S e out = .ok p ∧ parentRes S e out' = .ok p' ∧ sameElem S p p') := by
  unfold parentRes
  by_cases hl : e.level > 0
  · simp only [hl, not_true_eq_false, if_false]
    cases compute_cubeid S e e.level with
    | error err => exact Or.inl ⟨err, rfl, rfl⟩
    | ok cid =>
      dsimp only
      cases tableGet S.numCubeIds S.numTypes S.t8_dtri_cid_type_to_parenttype cid e.type with
      | error err => exact Or.inl ⟨err, rfl, rfl⟩
      | ok ty =>
        refine Or.inr ⟨_, _, rfl, rfl, rfl, rfl, rfl, rfl, ?_⟩
        intro htet
        simp [htet]
  · simp only [hl, if_true, not_false_eq_true]
    exact Or.inl ⟨_, rfl, rfl⟩

theorem sibling_refines (S : Scheme) (e out out1 out2 : t8_dtri_t) (b : Int)
    (hl : e.level > 0) (hb : 0 ≤ b ∧ b < S.T8_DTRI_CHILDREN) :
    sameOutcome S (siblingOf S e b out)
      ((parentOf S e out1).bind (fun p => childOf S p b out2)) := by
  rw [siblingOf_eq S e out b hb hl, parentOf_eq_parentRes]
  simp only [childOf_eq_childRes]
  rcases parentRes_out S e out out1 with ⟨err, h1, h2⟩ | ⟨p, p', h1, h2, hs⟩
  · rw [h1, h2]
    rfl
  · rw [h1, h2]
    exact childRes_congr S p p' p out2 hs b


/-! ### C10: sibling is child after parent -/

/-- C10: for every element `e` with `level > 0` and every id `b` in `[0, numChildren)`,
the call `t8_dtri_sibling (e, b, &out)`, which runs `t8_dtri_child` with the same element
as input and output, has the same outcome as `t8_dtri_parent` into a fresh element
followed by `t8_dtri_child` from it into another fresh element: either both fail with the
same error, or both return and the two results have the same level, type and anchor. -/
theorem C10_sibling_is_child_of_parent (S : Scheme) (e out out1 out2 : t8_dtri_t) (b : Int)
    (hl : e.level > 0) (hb : 0 ≤ b ∧ b < S.T8_DTRI_CHILDREN) :
    sameOutcome S (siblingOf S e b out)
      ((parentOf S e out1).bind (fun p => childOf S p b out2)) :=
  sibling_refines S e out out1 out2 b hl hb

/-- C10 (witness): the triangle `{level 1, type 1, anchor (2^28, 0)}` with `MAXLEVEL = 29`
and `b = 3`; both sides return `{level 1, type 0, anchor (2^28, 2^28)}`. -/
theorem C10_sibling_is_child_of_parent_witness :
    (⟨2 ^ 28, 0, 0, 1, 1, 0⟩ : t8_dtri_t).level > 0 ∧
    ((0 : Int) ≤ 3 ∧ (3 : Int) < (triScheme 29).T8_DTRI_CHILDREN) ∧
    siblingOf (triScheme 29) ⟨2 ^ 28, 0, 0, 1, 1, 0⟩ 3 ⟨7, 7, 7, 7, 7, 7⟩ =
      .ok ⟨2 ^ 28, 2 ^ 28, 7, 1, 0, 7⟩ ∧
    (parentOf (triScheme 29) ⟨2 ^ 28, 0, 0, 1, 1, 0⟩ ⟨8, 8, 8, 8, 8, 8⟩).bind
      (fun p => childOf (triScheme 29) p 3 ⟨9, 9, 9, 9, 9, 9⟩) =
      .ok ⟨2 ^ 28, 2 ^ 28, 9, 1, 0, 9⟩ ∧
    sameOutcome (triScheme 29)
      (siblingOf (triScheme 29) ⟨2 ^ 28, 0, 0, 1, 1, 0⟩ 3 ⟨7, 7, 7, 7, 7, 7⟩)
      ((parentOf (triScheme 29) ⟨2 ^ 28, 0, 0, 1, 1, 0⟩ ⟨8, 8, 8, 8, 8, 8⟩).bind
        (fun p => childOf (triScheme 29) p 3 ⟨9, 9, 9, 9, 9, 9⟩)) :=
  ⟨by decide, by decide, rfl, rfl,
    C10_sibling_is_child_of_parent (triScheme 29) ⟨2 ^ 28, 0, 0, 1, 1, 0⟩ ⟨7, 7, 7, 7, 7, 7⟩
      ⟨8, 8, 8, 8, 8, 8⟩ ⟨9, 9, 9, 9, 9, 9⟩ 3 (by decide) (by decide)⟩

/-! ### C12: the parent predicate on the computed parent -/

theorem is_parent_of_parentSpec (S : Scheme) (e out : t8_dtri_t) (h0 : 0 < e.level)
    (h1 : e.level ≤ S.MAXLEVEL) (hty : TypeOK S e) :
    t8_dtri_is_parent S (parentSpec S e out) e = .ok true := by
  obtain ⟨hc0, hc1⟩ := cubeIdVal_range S e e.level
  obtain ⟨ht0, ht1⟩ := hty
  have hcid := compute_cubeid_eq S e e.level (by omega) h1
  unfold t8_dtri_is_parent
  cases htet : S.tet <;>
    simp [hcid, tableGet, hc0, hc1, ht0, ht1, parentSpec, htet]

/-- C12: for every element `e` with `0 < level <= MAXLEVEL` and type in the type domain,
whatever the contents of the tables, `t8_dtri_parent (e)` returns an element `p` and
`t8_dtri_is_parent (p, e)` returns true. -/
theorem C12_is_parent_of_parent (S : Scheme) (e out : t8_dtri_t) (h0 : 0 < e.level)
    (h1 : e.level ≤ S.MAXLEVEL) (hty : TypeOK S e) :
    ∃ p, parentOf S e out = .ok p ∧ t8_dtri_is_parent S p e = .ok true :=
  ⟨_, parentOf_eq S e out h0 h1 hty, is_parent_of_parentSpec S e out h0 h1 hty⟩

/-- C12 (witness): the tetrahedron `{level 2, type 3, anchor (2^19, 0, 2^19)}` with
`MAXLEVEL = 21`. -/
theorem C12_is_parent_of_parent_witness :
    (0 : Int) < (⟨2 ^ 19, 0, 2 ^ 19, 2, 3, 0⟩ : t8_dtri_t).level ∧
    (⟨2 ^ 19, 0, 2 ^ 19, 2, 3, 0⟩ : t8_dtri_t).level ≤ (tetScheme 21).MAXLEVEL ∧
    TypeOK (tetScheme 21) ⟨2 ^ 19, 0, 2 ^ 19, 2, 3, 0⟩ ∧
    ∃ p, parentOf (tetScheme 21) ⟨2 ^ 19, 0, 2 ^ 19, 2, 3, 0⟩ ⟨0, 0, 0, 0, 0, 0⟩ = .ok p ∧
      t8_dtri_is_parent (tetScheme 21) p ⟨2 ^ 19, 0, 2 ^ 19, 2, 3, 0⟩ = .ok true :=
  ⟨by decide, by decide, by decide,
    C12_is_parent_of_parent (tetScheme 21) ⟨2 ^ 19, 0, 2 ^ 19, 2, 3, 0⟩ ⟨0, 0, 0, 0, 0, 0⟩
      (by decide) (by decide) (by decide)⟩

/-! ### C13: the cube-id -/

theorem cubeIdVal_bits (S : Scheme) (t : t8_dtri_t) (l : Int) (hl : l ≠ 0) :
    ((cubeIdVal S t l).testBit 0 = true ↔ band t.x (T8_DTRI_LEN S l) ≠ 0) ∧
    ((cubeIdVal S t l).testBit 1 = true ↔ band t.y (T8_DTRI_LEN S l) ≠ 0) ∧
    ((cubeIdVal S t l).testBit 2 = true ↔
      (S.tet = true ∧ band t.z (T8_DTRI_LEN S l) ≠ 0)) := by
  unfold cubeIdVal
  simp only [hl, if_false]
  cases S.tet <;> simp only [Bool.false_eq_true, if_false, if_true] <;>
    split_ifs <;> simp_all <;> decide

/-- C13: for every element `e` and every level `L` with `0 <= L <= MAXLEVEL`,
`compute_cubeid (e, L)` returns a value in `[0, 3]` in 2D and `[0, 7]` in 3D; the value
is 0 when `L = 0`; and for `L > 0`, with `h = 2^(MAXLEVEL - L)`, bit 0 is set iff
`(e.x & h) != 0`, bit 1 is set iff `(e.y & h) != 0`, and bit 2 is set iff the build is
3D and `(e.z & h) != 0`. -/
theorem C13_cubeid (S : Scheme) (e : t8_dtri_t) (L : Int) (h0 : 0 ≤ L) (h1 : L ≤ S.MAXLEVEL) :
    ∃ cid : Int, compute_cubeid S e L = .ok cid ∧
      0 ≤ cid ∧ cid ≤ (if S.tet then 7 else 3) ∧
      (L = 0 → cid = 0) ∧
      (L > 0 →
        T8_DTRI_LEN S L = 2 ^ (S.MAXLEVEL - L).toNat ∧
        (cid.testBit 0 = true ↔ band e.x (T8_DTRI_LEN S L) ≠ 0) ∧
        (cid.testBit 1 = true ↔ band e.y (T8_DTRI_LEN S L) ≠ 0) ∧
        (cid.testBit 2 = true ↔ (S.tet = true ∧ band e.z (T8_DTRI_LEN S L) ≠ 0))) := by
  obtain ⟨hc0, hc1⟩ := cubeIdVal_range S e L
  refine ⟨_, compute_cubeid_eq S e L h0 h1, hc0, ?_, ?_, ?_⟩
  · unfold Scheme.numCubeIds at hc1
    cases htet : S.tet <;> simp only [htet, Bool.false_eq_true, if_false, if_true] at hc1 ⊢ <;>
      norm_cast at hc1 <;> omega
  · intro hL
    simp [cubeIdVal, hL]
  · intro hL
    exact ⟨rfl, cubeIdVal_bits S e L (by omega)⟩

/-- C13 (witness): the tetrahedron `{level 1, type 0, anchor (2^20, 0, 2^20)}` with
`MAXLEVEL = 21` at level 1, where the cube-id is 5. -/
theorem C13_cubeid_witness :
    (0 : Int) ≤ 1 ∧ (1 : Int) ≤ (tetScheme 21).MAXLEVEL ∧
    compute_cubeid (tetScheme 21) ⟨2 ^ 20, 0, 2 ^ 20, 1, 0, 0⟩ 1 = .ok 5 ∧
    ∃ cid : Int, compute_cubeid (tetScheme 21) ⟨2 ^ 20, 0, 2 ^ 20, 1, 0, 0⟩ 1 = .ok cid ∧
      0 ≤ cid ∧ cid ≤ (if (tetScheme 21).tet then 7 else 3) ∧
      ((1 : Int) = 0 → cid = 0) ∧
      ((1 : Int) > 0 →
        T8_DTRI_LEN (tetScheme 21) 1 = 2 ^ ((tetScheme 21).MAXLEVEL - 1 : Int).toNat ∧
        (cid.testBit 0 = true ↔
          band (⟨2 ^ 20, 0, 2 ^ 20, 1, 0, 0⟩ : t8_dtri_t).x (T8_DTRI_LEN (tetScheme 21) 1) ≠ 0) ∧
        (cid.testBit 1 = true ↔
          band (⟨2 ^ 20, 0, 2 ^ 20, 1, 0, 0⟩ : t8_dtri_t).y (T8_DTRI_LEN (tetScheme 21) 1) ≠ 0) ∧
        (cid.testBit 2 = true ↔ ((tetScheme 21).tet = true ∧
          band (⟨2 ^ 20, 0, 2 ^ 20, 1, 0, 0⟩ : t8_dtri_t).z (T8_DTRI_LEN (tetScheme 21) 1) ≠ 0))) :=
  ⟨by decide, by decide, rfl,
    C13_cubeid (tetScheme 21) ⟨2 ^ 20, 0, 2 ^ 20, 1, 0, 0⟩ 1 (by decide) (by decide)⟩

/-! ### C15, C16: the sibling predicate at level 0 and on equal arguments -/

/-- C15: for all elements `a` and `b` with levels in `[0, MAXLEVEL]`,
`t8_dtri_is_sibling (a, b)` returns false whenever `a.level = 0` or `b.level = 0`, also
when only the second argument is at level 0. -/
theorem C15_is_sibling_level_zero (S : Scheme) (a b : t8_dtri_t)
    (ha : 0 ≤ a.level ∧ a.level ≤ S.MAXLEVEL) (hb : 0 ≤ b.level ∧ b.level ≤ S.MAXLEVEL)
    (h0 : a.level = 0 ∨ b.level = 0) :
    t8_dtri_is_sibling S a b = .ok false := by
  unfold t8_dtri_is_sibling
  by_cases hal : a.level = 0
  · simp [hal]
  · have hbl : b.level = 0 := by
      rcases h0 with h | h
      · exact absurd h hal
      · exact h
    have hne : ¬ (a.level = b.level) := by omega
    simp only [hal, if_false, compute_cubeid_eq S a a.level ha.1 ha.2,
      compute_cubeid_eq S b b.level hb.1 hb.2, hne, not_false_eq_true, if_true]

/-- C15 (witness): the triangle `{level 1, type 0, anchor (2^28, 0)}` as first and the
root as second argument, `MAXLEVEL = 29`. -/
theorem C15_is_sibling_level_zero_witness :
    ((0 : Int) ≤ (⟨2 ^ 28, 0, 0, 1, 0, 0⟩ : t8_dtri_t).level ∧
      (⟨2 ^ 28, 0, 0, 1, 0, 0⟩ : t8_dtri_t).level ≤ (triScheme 29).MAXLEVEL) ∧
    ((0 : Int) ≤ (⟨0, 0, 0, 0, 0, 0⟩ : t8_dtri_t).level ∧
      (⟨0, 0, 0, 0, 0, 0⟩ : t8_dtri_t).level ≤ (triScheme 29).MAXLEVEL) ∧
    ((⟨2 ^ 28, 0, 0, 1, 0, 0⟩ : t8_dtri_t).level = 0 ∨
      (⟨0, 0, 0, 0, 0, 0⟩ : t8_dtri_t).level = 0) ∧
    t8_dtri_is_sibling (triScheme 29) ⟨2 ^ 28, 0, 0, 1, 0, 0⟩ ⟨0, 0, 0, 0, 0, 0⟩ = .ok false :=
  ⟨by decide, by decide, by decide,
    C15_is_sibling_level_zero (triScheme 29) ⟨2 ^ 28, 0, 0, 1, 0, 0⟩ ⟨0, 0, 0, 0, 0, 0⟩
      (by decide) (by decide) (by decide)⟩

theorem is_sibling_ne_true_of_type_eq (S : Scheme) (a b : t8_dtri_t) (h : a.type = b.type) :
    t8_dtri_is_sibling S a b ≠ .ok true := by
  unfold t8_dtri_is_sibling
  dsimp only
  by_cases hl : a.level = 0
  · simp [hl]
  · simp only [hl, if_false]
    cases compute_cubeid S a a.level with
    | error err => simp
    | ok cid1 =>
      dsimp only
      cases compute_cubeid S b b.level with
      | error err => simp
      | ok cid2 =>
        dsimp only
        split_ifs
        all_goals first
          | (simp; done)
          | skip
        cases tableGet S.numCubeIds S.numTypes S.t8_dtri_cid_type_to_parenttype cid1 a.type with
        | error err => simp
        | ok p1 =>
          dsimp only
          cases tableGet S.numCubeIds S.numTypes S.t8_dtri_cid_type_to_parenttype cid2
              b.type with
          | error err => simp
          | ok p2 => simp [h]

/-! ### Bits of exclusive-or -/

theorem nat_bits_zero_iff (x : Nat) : x = 0 ↔ ∀ i, x.testBit i = false := by
  constructor
  · rintro rfl i
    simp
  · intro h
    apply Nat.eq_of_testBit_eq
    intro i
    simp [h i]

theorem nat_bits_eq_iff (x y : Nat) : x = y ↔ ∀ i, x.testBit i = y.testBit i :=
  ⟨fun h i => by rw [h], Nat.eq_of_testBit_eq⟩

theorem int_ofNat_eq_zero_iff (n : Nat) : Int.ofNat n = 0 ↔ n = 0 :=
  ⟨fun h => Int.ofNat.inj h, fun h => by rw [h]; rfl⟩

theorem int_ofNat_eq_iff (a b : Nat) : Int.ofNat a = Int.ofNat b ↔ a = b :=
  ⟨fun h => Int.ofNat.inj h, fun h => by rw [h]⟩

theorem int_negSucc_eq_iff (a b : Nat) : Int.negSucc a = Int.negSucc b ↔ a = b :=
  ⟨fun h => Int.negSucc.inj h, fun h => by rw [h]⟩

theorem band_xor_eq_zero_iff (p q m : Int) :
    band (Int.xor p q) m = 0 ↔ band p m = band q m := by
  cases p with
  | ofNat a =>
    cases q with
    | ofNat b =>
      cases m with
      | ofNat c =>
        show Int.ofNat ((a ^^^ b) &&& c) = 0 ↔ Int.ofNat (a &&& c) = Int.ofNat (b &&& c)
        rw [int_ofNat_eq_zero_iff, int_ofNat_eq_iff, nat_bits_zero_iff, nat_bits_eq_iff]
        refine forall_congr' fun i => ?_
        simp only [Nat.testBit_and, Nat.testBit_xor]
        cases a.testBit i <;> cases b.testBit i <;> cases c.testBit i <;> simp
      | negSucc c =>
        show Int.ofNat ((a ^^^ b) ^^^ ((a ^^^ b) &&& c)) = 0 ↔
          Int.ofNat (a ^^^ (a &&& c)) = Int.ofNat (b ^^^ (b &&& c))
        rw [int_ofNat_eq_zero_iff, int_ofNat_eq_iff, nat_bits_zero_iff, nat_bits_eq_iff]
        refine forall_congr' fun i => ?_
        simp only [Nat.testBit_and, Nat.testBit_xor]
        cases a.testBit i <;> cases b.testBit i <;> cases c.testBit i <;> simp
    | negSucc b =>
      cases m with
      | ofNat c =>
        show Int.ofNat (c ^^^ (c &&& (a ^^^ b))) = 0 ↔
          Int.ofNat (a &&& c) = Int.ofNat (c ^^^ (c &&& b))
        rw [int_ofNat_eq_zero_iff, int_ofNat_eq_iff, nat_bits_zero_iff, nat_bits_eq_iff]
        refine forall_congr' fun i => ?_
        simp only [Nat.testBit_and, Nat.testBit_xor]
        cases a.testBit i <;> cases b.testBit i <;> cases c.testBit i <;> simp
      | negSucc c =>
        show Int.negSucc ((a ^^^ b) ||| c) = 0 ↔
          Int.ofNat (a ^^^ (a &&& c)) = Int.negSucc (b ||| c)
        constructor <;> intro h <;> cases h
  | negSucc a =>
    cases q with
    | ofNat b =>
      cases m with
      | ofNat c =>
        show Int.ofNat (c ^^^ (c &&& (a ^^^ b))) = 0 ↔
          Int.ofNat (c ^^^ (c &&& a)) = Int.ofNat (b &&& c)
        rw [int_ofNat_eq_zero_iff, int_ofNat_eq_iff, nat_bits_zero_iff, nat_bits_eq_iff]
        refine forall_congr' fun i => ?_
        simp only [Nat.testBit_and, Nat.testBit_xor]
        cases a.testBit i <;> cases b.testBit i <;> cases c.testBit i <;> simp
      | negSucc c =>
        show Int.negSucc ((a ^^^ b) ||| c) = 0 ↔
          Int.negSucc (a ||| c) = Int.ofNat (b ^^^ (b &&& c))
        constructor <;> intro h <;> cases h
    | negSucc b =>
      cases m with
      | ofNat c =>
        show Int.ofNat ((a ^^^ b) &&& c) = 0 ↔
          Int.ofNat (c ^^^ (c &&& a)) = Int.ofNat (c ^^^ (c &&& b))
        rw [int_ofNat_eq_zero_iff, int_ofNat_eq_iff, nat_bits_zero_iff, nat_bits_eq_iff]
        refine forall_congr' fun i => ?_
        simp only [Nat.testBit_and, Nat.testBit_xor]
        cases a.testBit i <;> cases b.testBit i <;> cases c.testBit i <;> simp
      | negSucc c =>
        show Int.ofNat ((a ^^^ b) ^^^ ((a ^^^ b) &&& c)) = 0 ↔
          Int.negSucc (a ||| c) = Int.negSucc (b ||| c)
        rw [int_ofNat_eq_zero_iff, int_negSucc_eq_iff, nat_bits_zero_iff, nat_bits_eq_iff]
        refine forall_congr' fun i => ?_
        simp only [Nat.testBit_and, Nat.testBit_xor, Nat.testBit_or]
        cases a.testBit i <;> cases b.testBit i <;> cases c.testBit i <;> simp

/-! ### The sibling and the parent predicate in closed form -/

theorem parentType_get (S : Scheme) (e : t8_dtri_t) (hty : TypeOK S e) :
    tableGet S.numCubeIds S.numTypes S.t8_dtri_cid_type_to_parenttype
      (cubeIdVal S e e.level) e.type = .ok (parentType S e) := by
  obtain ⟨hc0, hc1⟩ := cubeIdVal_range S e e.level
  obtain ⟨ht0, ht1⟩ := hty
  simp [tableGet, hc0, hc1, ht0, ht1, parentType]

theorem is_sibling_eq (S : Scheme) (a b : t8_dtri_t)
    (ha : 0 ≤ a.level ∧ a.level ≤ S.MAXLEVEL) (hb : 0 ≤ b.level ∧ b.level ≤ S.MAXLEVEL)
    (hta : TypeOK S a) (htb : TypeOK S b) :
    t8_dtri_is_sibling S a b = .ok (siblingVal S a b) := by
  unfold t8_dtri_is_sibling siblingVal
  dsimp only
  by_cases h0 : a.level = 0
  · simp [h0]
  · simp only [h0, if_false, compute_cubeid_eq S a a.level ha.1 ha.2,
      compute_cubeid_eq S b b.level hb.1 hb.2, parentType_get S a hta, parentType_get S b htb]
    by_cases h1 : a.level = b.level
    · have h1' : (a.level = b.level) = True := eq_true h1
      by_cases hx : band (Int.xor a.x b.x) (Int.lnot (T8_DTRI_LEN S a.level)) = 0
      · by_cases hy : band (Int.xor a.y b.y) (Int.lnot (T8_DTRI_LEN S a.level)) = 0
        · cases htet : S.tet
          · simp [h0, h1', hx, hy]
          · by_cases hz : band (Int.xor a.z b.z) (Int.lnot (T8_DTRI_LEN S a.level)) = 0
            · simp [h0, h1', hx, hy, hz]
            · simp [h0, h1', hx, hy, hz]
        · simp [h0, h1', hx, hy]
      · simp [h0, h1', hx]
    · simp [h0, h1]

theorem is_parent_eq (S : Scheme) (t c : t8_dtri_t)
    (hc : 0 ≤ c.level ∧ c.level ≤ S.MAXLEVEL) (htc : TypeOK S c) :
    t8_dtri_is_parent S t c = .ok (parentVal S t c) := by
  unfold t8_dtri_is_parent parentVal
  simp only [compute_cubeid_eq S c c.level hc.1 hc.2, parentType_get S c htc]
  by_cases h1 : t.level + 1 = c.level
  · by_cases hx : t.x = band c.x (Int.lnot (T8_DTRI_LEN S c.level))
    · by_cases hy : t.y = band c.y (Int.lnot (T8_DTRI_LEN S c.level))
      · cases htet : S.tet
        · simp [h1, ← hx, ← hy]
        · by_cases hz : t.z = band c.z (Int.lnot (T8_DTRI_LEN S c.level))
          · simp [h1, ← hx, ← hy, ← hz]
          · simp [h1, ← hx, ← hy, hz]
      · simp [h1, ← hx, hy]
    · simp [h1, hx]
  · simp [h1]

/-! ### C16: the sibling predicate on equal arguments -/

/-- C16: `t8_dtri_is_sibling (e, e)` never returns true, for any element `e`; and for
every element `e` with level in `[0, MAXLEVEL]` and type in the type domain it returns
false. -/
theorem C16_is_sibling_self (S : Scheme) (e : t8_dtri_t) :
    t8_dtri_is_sibling S e e ≠ .ok true ∧
    (0 ≤ e.level ∧ e.level ≤ S.MAXLEVEL → TypeOK S e →
      t8_dtri_is_sibling S e e = .ok false) := by
  refine ⟨is_sibling_ne_true_of_type_eq S e e rfl, ?_⟩
  intro hl hty
  rw [is_sibling_eq S e e hl hl hty hty]
  simp [siblingVal]

/-! ### C19: siblings have distinct types and the same parent -/

theorem siblingVal_iff (S : Scheme) (a b out out' : t8_dtri_t) :
    siblingVal S a b = true ↔
      (a.level ≠ 0 ∧ a.level = b.level ∧ a.type ≠ b.type ∧
        sameElem S (parentSpec S a out) (parentSpec S b out')) := by
  unfold siblingVal sameElem parentSpec
  simp only [Bool.and_eq_true, decide_eq_true_eq, Bool.or_eq_true, Bool.not_eq_true',
    band_xor_eq_zero_iff]
  constructor
  · rintro ⟨⟨⟨⟨⟨⟨h0, h1⟩, hx⟩, hy⟩, hz⟩, hp⟩, ht⟩
    refine ⟨h0, h1, ht, by omega, hp, ?_, ?_, ?_⟩
    · rw [← h1]; exact hx
    · rw [← h1]; exact hy
    · intro htet
      rw [← h1]
      simp only [htet, if_true]
      rcases hz with hz | hz
      · rw [htet] at hz; cases hz
      · exact hz
  · rintro ⟨h0, h1, ht, -, hp, hx, hy, hz⟩
    rw [← h1] at hx hy hz
    refine ⟨⟨⟨⟨⟨⟨h0, h1⟩, hx⟩, hy⟩, ?_⟩, hp⟩, ht⟩
    cases htet : S.tet
    · exact Or.inl rfl
    · right
      have := hz htet
      simpa [htet] using this

theorem sameElem_symm (S : Scheme) (a b : t8_dtri_t) (h : sameElem S a b) : sameElem S b a :=
  ⟨h.1.symm, h.2.1.symm, h.2.2.1.symm, h.2.2.2.1.symm, fun ht => (h.2.2.2.2 ht).symm⟩

theorem sameElem_trans (S : Scheme) (a b c : t8_dtri_t) (h : sameElem S a b)
    (h' : sameElem S b c) : sameElem S a c :=
  ⟨h.1.trans h'.1, h.2.1.trans h'.2.1, h.2.2.1.trans h'.2.2.1, h.2.2.2.1.trans h'.2.2.2.1,
    fun ht => (h.2.2.2.2 ht).trans (h'.2.2.2.2 ht)⟩

theorem siblingVal_symm (S : Scheme) (a b : t8_dtri_t) :
    siblingVal S a b = siblingVal S b a := by
  rw [Bool.eq_iff_iff, siblingVal_iff S a b a b, siblingVal_iff S b a b a]
  constructor
  · rintro ⟨h0, h1, ht, hs⟩
    exact ⟨by omega, h1.symm, fun h => ht h.symm, sameElem_symm S _ _ hs⟩
  · rintro ⟨h0, h1, ht, hs⟩
    exact ⟨by omega, h1.symm, fun h => ht h.symm, sameElem_symm S _ _ hs⟩

/-- C19: for all elements `a` and `b` with levels in `[0, MAXLEVEL]` and types in the type
domain, `t8_dtri_is_sibling (a, b)` returns a value; the value is true if and only if
`a.level > 0`, `a.level = b.level`, `a.type != b.type`, and `t8_dtri_parent (a)` and
`t8_dtri_parent (b)` both return and agree in level, type and every anchor coordinate;
and `t8_dtri_is_sibling (b, a)` returns the same value. -/
theorem C19_is_sibling_same_parent (S : Scheme) (a b out out' : t8_dtri_t)
    (ha : 0 ≤ a.level ∧ a.level ≤ S.MAXLEVEL) (hb : 0 ≤ b.level ∧ b.level ≤ S.MAXLEVEL)
    (hta : TypeOK S a) (htb : TypeOK S b) :
    ∃ r : Bool, t8_dtri_is_sibling S a b = .ok r ∧
      (r = true ↔ (a.level > 0 ∧ a.level = b.level ∧ a.type ≠ b.type ∧
        ∃ pa pb, parentOf S a out = .ok pa ∧ parentOf S b out' = .ok pb ∧ sameElem S pa pb)) ∧
      t8_dtri_is_sibling S b a = .ok r := by
  refine ⟨siblingVal S a b, is_sibling_eq S a b ha hb hta htb, ?_, ?_⟩
  · rw [siblingVal_iff S a b out out']
    constructor
    · rintro ⟨h0, h1, ht, hs⟩
      have ha0 : 0 < a.level := by omega
      exact ⟨ha0, h1, ht, _, _, parentOf_eq S a out ha0 ha.2 hta,
        parentOf_eq S b out' (by omega) hb.2 htb, hs⟩
    · rintro ⟨h0, h1, ht, pa, pb, hpa, hpb, hs⟩
      rw [parentOf_eq S a out h0 ha.2 hta] at hpa
      rw [parentOf_eq S b out' (by omega) hb.2 htb] at hpb
      cases hpa
      cases hpb
      exact ⟨by omega, h1, ht, hs⟩
  · rw [is_sibling_eq S b a hb ha htb hta, siblingVal_symm S a b]

/-- C19 (witness): the children 0 and 2 of the triangle root,
`{level 1, type 0, anchor (0, 0)}` and `{level 1, type 1, anchor (2^28, 0)}`, with
`MAXLEVEL = 29`; the predicate returns true on them. -/
theorem C19_is_sibling_same_parent_witness :
    t8_dtri_is_sibling (triScheme 29) ⟨0, 0, 0, 1, 0, 0⟩ ⟨2 ^ 28, 0, 0, 1, 1, 0⟩ = .ok true ∧
    ∃ r : Bool,
      t8_dtri_is_sibling (triScheme 29) ⟨0, 0, 0, 1, 0, 0⟩ ⟨2 ^ 28, 0, 0, 1, 1, 0⟩ = .ok r ∧
      (r = true ↔ ((⟨0, 0, 0, 1, 0, 0⟩ : t8_dtri_t).level > 0 ∧
        (⟨0, 0, 0, 1, 0, 0⟩ : t8_dtri_t).level = (⟨2 ^ 28, 0, 0, 1, 1, 0⟩ : t8_dtri_t).level ∧
        (⟨0, 0, 0, 1, 0, 0⟩ : t8_dtri_t).type ≠ (⟨2 ^ 28, 0, 0, 1, 1, 0⟩ : t8_dtri_t).type ∧
        ∃ pa pb, parentOf (triScheme 29) ⟨0, 0, 0, 1, 0, 0⟩ ⟨0, 0, 0, 0, 0, 0⟩ = .ok pa ∧
          parentOf (triScheme 29) ⟨2 ^ 28, 0, 0, 1, 1, 0⟩ ⟨0, 0, 0, 0, 0, 0⟩ = .ok pb ∧
          sameElem (triScheme 29) pa pb)) ∧
      t8_dtri_is_sibling (triScheme 29) ⟨2 ^ 28, 0, 0, 1, 1, 0⟩ ⟨0, 0, 0, 1, 0, 0⟩ = .ok r :=
  ⟨rfl, C19_is_sibling_same_parent (triScheme 29) ⟨0, 0, 0, 1, 0, 0⟩ ⟨2 ^ 28, 0, 0, 1, 1, 0⟩
    ⟨0, 0, 0, 0, 0, 0⟩ ⟨0, 0, 0, 0, 0, 0⟩ (by decide) (by decide) (by decide) (by decide)⟩

/-! ### C20: the parent predicate accepts the computed parent only -/

/-- C20: for all elements `t` and `c` with levels in `[0, MAXLEVEL]` and the type of `c` in
the type domain, if `t8_dtri_is_parent (t, c)` returns true then `c.level > 0`,
`t8_dtri_parent (c)` returns an element, and `t` agrees with it in level, type and every
anchor coordinate. -/
theorem C20_is_parent_only_parent (S : Scheme) (t c out : t8_dtri_t)
    (ht : 0 ≤ t.level ∧ t.level ≤ S.MAXLEVEL) (hc : 0 ≤ c.level ∧ c.level ≤ S.MAXLEVEL)
    (htc : TypeOK S c) (h : t8_dtri_is_parent S t c = .ok true) :
    c.level > 0 ∧ ∃ p, parentOf S c out = .ok p ∧ sameElem S t p := by
  rw [is_parent_eq S t c hc htc] at h
  have hv : parentVal S t c = true := by
    injection h
  unfold parentVal at hv
  simp only [Bool.and_eq_true, decide_eq_true_eq, Bool.or_eq_true, Bool.not_eq_true'] at hv
  obtain ⟨⟨⟨⟨hl, hx⟩, hy⟩, hz⟩, hty⟩ := hv
  have hc0 : 0 < c.level := by omega
  refine ⟨hc0, _, parentOf_eq S c out hc0 hc.2 htc, ?_, hty, hx, hy, ?_⟩
  · show t.level = c.level - 1
    omega
  · intro htet
    simp only [parentSpec, htet, if_true]
    rcases hz with hz | hz
    · rw [htet] at hz; cases hz
    · exact hz

/-- C20 (witness): the triangle root and its child 2 `{level 1, type 1, anchor (2^28, 0)}`
with `MAXLEVEL = 29`. -/
theorem C20_is_parent_only_parent_witness :
    ((0 : Int) ≤ (⟨0, 0, 0, 0, 0, 0⟩ : t8_dtri_t).level ∧
      (⟨0, 0, 0, 0, 0, 0⟩ : t8_dtri_t).level ≤ (triScheme 29).MAXLEVEL) ∧
    ((0 : Int) ≤ (⟨2 ^ 28, 0, 0, 1, 1, 0⟩ : t8_dtri_t).level ∧
      (⟨2 ^ 28, 0, 0, 1, 1, 0⟩ : t8_dtri_t).level ≤ (triScheme 29).MAXLEVEL) ∧
    TypeOK (triScheme 29) ⟨2 ^ 28, 0, 0, 1, 1, 0⟩ ∧
    t8_dtri_is_parent (triScheme 29) ⟨0, 0, 0, 0, 0, 0⟩ ⟨2 ^ 28, 0, 0, 1, 1, 0⟩ = .ok true ∧
    ((⟨2 ^ 28, 0, 0, 1, 1, 0⟩ : t8_dtri_t).level > 0 ∧
      ∃ p, parentOf (triScheme 29) ⟨2 ^ 28, 0, 0, 1, 1, 0⟩ ⟨0, 0, 0, 0, 0, 0⟩ = .ok p ∧
        sameElem (triScheme 29) ⟨0, 0, 0, 0, 0, 0⟩ p) :=
  ⟨by decide, by decide, by decide, rfl,
    C20_is_parent_only_parent (triScheme 29) ⟨0, 0, 0, 0, 0, 0⟩ ⟨2 ^ 28, 0, 0, 1, 1, 0⟩
      ⟨0, 0, 0, 0, 0, 0⟩ (by decide) (by decide) (by decide) rfl⟩

/-! ### The anchor invariant under parent and child -/

theorem len_pow (S : Scheme) (l : Int) (h0 : 0 ≤ l) (h1 : l ≤ S.MAXLEVEL) :
    ∃ k j : Nat, k + j = S.MAXLEVEL ∧ (j : Int) = l ∧ T8_DTRI_LEN S l = 2 ^ k := by
  refine ⟨(S.MAXLEVEL - l).toNat, l.toNat, ?_, Int.toNat_of_nonneg h0, rfl⟩
  omega

theorem coordOK_factor (S : Scheme) (l c : Int) (k : Nat)
    (hl : T8_DTRI_LEN S l = 2 ^ k) (hc : CoordOK S l c) :
    ∃ q : Nat, c = (2 : Int) ^ k * q := by
  obtain ⟨hc0, -, hmod⟩ := hc
  rw [hl] at hmod
  obtain ⟨r, hr⟩ := Int.dvd_of_emod_eq_zero hmod
  have hpos : (0 : Int) < 2 ^ k := by positivity
  have hr0 : 0 ≤ r := by
    by_contra hneg
    have : (2 : Int) ^ k * r < 0 := Int.mul_neg_of_pos_of_neg hpos (by omega)
    omega
  exact ⟨r.toNat, by rw [Int.toNat_of_nonneg hr0]; exact hr⟩

/-- A coordinate of a well-formed element leaves room for one cell below `2^MAXLEVEL`. -/
theorem coord_add_len_le (S : Scheme) (l c : Int) (h0 : 0 ≤ l) (h1 : l ≤ S.MAXLEVEL)
    (hc : CoordOK S l c) : c + T8_DTRI_LEN S l ≤ 2 ^ S.MAXLEVEL ∧ 0 < T8_DTRI_LEN S l := by
  obtain ⟨k, j, hkj, -, hk⟩ := len_pow S l h0 h1
  obtain ⟨q, rfl⟩ := coordOK_factor S l c k hk hc
  obtain ⟨-, hlt, -⟩ := hc
  rw [hk]
  rw [← hkj, pow_add] at hlt ⊢
  have hpos : (0 : Int) < 2 ^ k := by positivity
  have hq : (q : Int) < 2 ^ j := lt_of_mul_lt_mul_left hlt (le_of_lt hpos)
  refine ⟨?_, hpos⟩
  have : (q : Int) + 1 ≤ 2 ^ j := hq
  nlinarith

theorem coord_parent (S : Scheme) (l c : Int) (h1 : l ≤ S.MAXLEVEL)
    (hc : CoordOK S l c) : CoordOK S (l - 1) (band c (Int.lnot (T8_DTRI_LEN S l))) := by
  obtain ⟨k, hk1, hk⟩ := len_succ S (l - 1) (by omega)
  have hl : l - 1 + 1 = l := by omega
  rw [hl] at hk1
  obtain ⟨r, rfl⟩ := coordOK_factor S l c k hk1 hc
  obtain ⟨-, hlt, -⟩ := hc
  have hd : (r % 2 : Nat) = 0 ∨ (r % 2 : Nat) = 1 := by omega
  have hd' : ((r % 2 : Nat) : Int) = 0 ∨ ((r % 2 : Nat) : Int) = 1 := by
    rcases hd with h | h <;> rw [h] <;> simp
  have hsplit : (2 : Int) ^ k * (r : Int) =
      (2 : Int) ^ (k + 1) * ((r / 2 : Nat) : Int) + ((r % 2 : Nat) : Int) * 2 ^ k := by
    have : (r : Int) = 2 * ((r / 2 : Nat) : Int) + ((r % 2 : Nat) : Int) := by
      have := Nat.div_add_mod r 2
      omega
    linear_combination (2 : Int) ^ k * this
  have hb := (band_block k (r / 2) _ hd').2
  rw [hk1, hsplit, hb]
  have hpos : (0 : Int) < 2 ^ k := by positivity
  refine ⟨by positivity, ?_, ?_⟩
  · have : (0 : Int) ≤ ((r % 2 : Nat) : Int) * 2 ^ k := by positivity
    rw [hsplit] at hlt
    omega
  · rw [hk]
    exact Int.mul_emod_right _ _

theorem coord_child_ok (S : Scheme) (l c b : Int) (h0 : 0 ≤ l) (h1 : l < S.MAXLEVEL)
    (hc : CoordOK S l c) (hb : b = 0 ∨ b = 1) :
    CoordOK S (l + 1) (c + b * T8_DTRI_LEN S (l + 1)) ∧
    T8_DTRI_LEN S (l + 1) = T8_DTRI_LEN S l / 2 := by
  obtain ⟨hle, -⟩ := coord_add_len_le S l c h0 (by omega) hc
  obtain ⟨k, hk1, hk⟩ := len_succ S l h1
  obtain ⟨q, rfl⟩ := coordOK_decompose S l c k hk hc
  rw [hk] at hle
  unfold CoordOK
  rw [hk1, hk]
  have hpos : (0 : Int) < 2 ^ k := by positivity
  have h2 : (2 : Int) ^ (k + 1) = 2 * 2 ^ k := by rw [pow_succ]; ring
  have hq0 : (0 : Int) ≤ 2 ^ (k + 1) * (q : Int) := by positivity
  refine ⟨⟨?_, ?_, ?_⟩, ?_⟩
  · rcases hb with rfl | rfl
    · omega
    · omega
  · rcases hb with rfl | rfl
    · rw [h2] at hle ⊢; omega
    · rw [h2] at hle ⊢; omega
  · have : (2 : Int) ^ (k + 1) * (q : Int) + b * 2 ^ k = 2 ^ k * (2 * q + b) := by
      rw [h2]; ring
    rw [this]
    exact Int.mul_emod_right _ _
  · rw [h2]
    simp


theorem parentSpec_anchorOK (S : Scheme) (e out : t8_dtri_t) (hwf : WellFormed S e)
    (h0 : 0 < e.level) : AnchorOK S (parentSpec S e out) := by
  obtain ⟨-, hl1, -, hx, hy, hz⟩ := hwf
  refine ⟨?_, ?_, coord_parent S e.level e.x hl1 hx, coord_parent S e.level e.y hl1 hy, ?_⟩
  · show 0 ≤ e.level - 1
    omega
  · show e.level - 1 ≤ S.MAXLEVEL
    omega
  · intro htet
    simp only [parentSpec, htet, if_true]
    exact coord_parent S e.level e.z hl1 (hz htet)

theorem childSpec_anchorOK (S : Scheme) (e out : t8_dtri_t) (i : Int) (hwf : WellFormed S e)
    (hl : e.level < S.MAXLEVEL) : AnchorOK S (childSpec S e i out) := by
  obtain ⟨hl0, -, -, hx, hy, hz⟩ := hwf
  refine ⟨?_, ?_, (coord_child_ok S e.level e.x _ hl0 hl hx (childBit_range S e.type _ 0)).1,
    (coord_child_ok S e.level e.y _ hl0 hl hy (childBit_range S e.type _ 1)).1, ?_⟩
  · show 0 ≤ e.level + 1
    omega
  · show e.level + 1 ≤ S.MAXLEVEL
    omega
  · intro htet
    simp only [childSpec, htet, if_true]
    exact (coord_child_ok S e.level e.z _ hl0 hl (hz htet) (childBit_range S e.type _ 2)).1

/-! ### C17: parent and child preserve the anchor invariant -/

/-- C17: for every well-formed element `e` (level in `[0, MAXLEVEL]`, type in the type
domain, anchor coordinates in `[0, 2^MAXLEVEL)` and multiples of `h(level)`): if
`level > 0`, `t8_dtri_parent (e)` returns an element whose level and anchor satisfy the
same invariant; if `level < MAXLEVEL`, `i` is a valid child index and the Bey number the
table gives for it is in range, `t8_dtri_child (e, i)` returns an element whose level and
anchor satisfy the invariant and whose anchor is `anchor + (h(level)/2) * d` with every
component of `d` in `{0, 1}`. -/
theorem C17_anchor_invariant (S : Scheme) (e out : t8_dtri_t) (i : Int)
    (hwf : WellFormed S e) :
    (0 < e.level → ∃ p, parentOf S e out = .ok p ∧ AnchorOK S p) ∧
    (e.level < S.MAXLEVEL → (0 ≤ i ∧ i < S.T8_DTRI_CHILDREN) →
      (0 ≤ S.t8_dtri_index_to_bey_number e.type.toNat i.toNat ∧
        S.t8_dtri_index_to_bey_number e.type.toNat i.toNat < S.T8_DTRI_CHILDREN) →
      ∃ (c : t8_dtri_t) (d0 d1 d2 : Int), childOf S e i out = .ok c ∧ AnchorOK S c ∧
        (d0 = 0 ∨ d0 = 1) ∧ (d1 = 0 ∨ d1 = 1) ∧ (d2 = 0 ∨ d2 = 1) ∧
        c.x = e.x + (T8_DTRI_LEN S e.level / 2) * d0 ∧
        c.y = e.y + (T8_DTRI_LEN S e.level / 2) * d1 ∧
        (S.tet = true → c.z = e.z + (T8_DTRI_LEN S e.level / 2) * d2)) := by
  constructor
  · intro h0
    exact ⟨_, parentOf_eq S e out h0 hwf.2.1 hwf.2.2.1, parentSpec_anchorOK S e out hwf h0⟩
  · intro hl hi hbey
    have hhalf := (coord_child_ok S e.level e.x 0 hwf.1 hl hwf.2.2.2.1 (Or.inl rfl)).2
    refine ⟨_, childBit S e.type (S.t8_dtri_index_to_bey_number e.type.toNat i.toNat) 0,
      childBit S e.type (S.t8_dtri_index_to_bey_number e.type.toNat i.toNat) 1,
      childBit S e.type (S.t8_dtri_index_to_bey_number e.type.toNat i.toNat) 2,
      childOf_eq S e out i hwf hl hi hbey, childSpec_anchorOK S e out i hwf hl,
      childBit_range _ _ _ _, childBit_range _ _ _ _, childBit_range _ _ _ _, ?_, ?_, ?_⟩
    · rw [← hhalf]
      simp only [childSpec]
      ring
    · rw [← hhalf]
      simp only [childSpec]
      ring
    · intro htet
      rw [← hhalf]
      simp only [childSpec, htet, if_true]
      ring

/-- C17 (witness): the tetrahedron `{level 1, type 0, anchor (2^20, 0, 2^20)}` with
`MAXLEVEL = 21`, the tables of the refinement scheme and child index 5. -/
theorem C17_anchor_invariant_witness :
    WellFormed (tetScheme 21) ⟨2 ^ 20, 0, 2 ^ 20, 1, 0, 0⟩ ∧
    parentOf (tetScheme 21) ⟨2 ^ 20, 0, 2 ^ 20, 1, 0, 0⟩ ⟨0, 0, 0, 0, 0, 0⟩ =
      .ok ⟨0, 0, 0, 0, 0, 0⟩ ∧
    childOf (tetScheme 21) ⟨2 ^ 20, 0, 2 ^ 20, 1, 0, 0⟩ 5 ⟨0, 0, 0, 0, 0, 0⟩ =
      .ok ⟨2 ^ 20 + 2 ^ 19, 0, 2 ^ 20 + 2 ^ 19, 2, 1, 0⟩ ∧
    ((0 < (⟨2 ^ 20, 0, 2 ^ 20, 1, 0, 0⟩ : t8_dtri_t).level →
      ∃ p, parentOf (tetScheme 21) ⟨2 ^ 20, 0, 2 ^ 20, 1, 0, 0⟩ ⟨0, 0, 0, 0, 0, 0⟩ = .ok p ∧
        AnchorOK (tetScheme 21) p) ∧
    ((⟨2 ^ 20, 0, 2 ^ 20, 1, 0, 0⟩ : t8_dtri_t).level < (tetScheme 21).MAXLEVEL →
      ((0 : Int) ≤ 5 ∧ (5 : Int) < (tetScheme 21).T8_DTRI_CHILDREN) →
      (0 ≤ (tetScheme 21).t8_dtri_index_to_bey_number
          (⟨2 ^ 20, 0, 2 ^ 20, 1, 0, 0⟩ : t8_dtri_t).type.toNat (5 : Int).toNat ∧
        (tetScheme 21).t8_dtri_index_to_bey_number
          (⟨2 ^ 20, 0, 2 ^ 20, 1, 0, 0⟩ : t8_dtri_t).type.toNat (5 : Int).toNat <
            (tetScheme 21).T8_DTRI_CHILDREN) →
      ∃ (c : t8_dtri_t) (d0 d1 d2 : Int),
        childOf (tetScheme 21) ⟨2 ^ 20, 0, 2 ^ 20, 1, 0, 0⟩ 5 ⟨0, 0, 0, 0, 0, 0⟩ = .ok c ∧
        AnchorOK (tetScheme 21) c ∧
        (d0 = 0 ∨ d0 = 1) ∧ (d1 = 0 ∨ d1 = 1) ∧ (d2 = 0 ∨ d2 = 1) ∧
        c.x = (⟨2 ^ 20, 0, 2 ^ 20, 1, 0, 0⟩ : t8_dtri_t).x +
          (T8_DTRI_LEN (tetScheme 21) (⟨2 ^ 20, 0, 2 ^ 20, 1, 0, 0⟩ : t8_dtri_t).level / 2) * d0 ∧
        c.y = (⟨2 ^ 20, 0, 2 ^ 20, 1, 0, 0⟩ : t8_dtri_t).y +
          (T8_DTRI_LEN (tetScheme 21) (⟨2 ^ 20, 0, 2 ^ 20, 1, 0, 0⟩ : t8_dtri_t).level / 2) * d1 ∧
        ((tetScheme 21).tet = true → c.z = (⟨2 ^ 20, 0, 2 ^ 20, 1, 0, 0⟩ : t8_dtri_t).z +
          (T8_DTRI_LEN (tetScheme 21) (⟨2 ^ 20, 0, 2 ^ 20, 1, 0, 0⟩ : t8_dtri_t).level / 2) * d2))) :=
  ⟨by decide, rfl, rfl,
    C17_anchor_invariant (tetScheme 21) ⟨2 ^ 20, 0, 2 ^ 20, 1, 0, 0⟩ ⟨0, 0, 0, 0, 0, 0⟩ 5
      (by decide)⟩

/-! ### C11: parent after sibling -/

theorem tablesParentRange_tri_zero : tablesParentRange (triScheme 0) = true := by decide

theorem tablesParentRange_tri (M : Nat) : tablesParentRange (triScheme M) = true :=
  Eq.trans (rfl : tablesParentRange (triScheme M) = tablesParentRange (triScheme 0))
    tablesParentRange_tri_zero

theorem tablesParentRange_tet_zero : tablesParentRange (tetScheme 0) = true := by decide

theorem tablesParentRange_tet (M : Nat) : tablesParentRange (tetScheme M) = true :=
  Eq.trans (rfl : tablesParentRange (tetScheme M) = tablesParentRange (tetScheme 0))
    tablesParentRange_tet_zero

theorem parentSpec_wellFormed (S : Scheme) (hP : tablesParentRange S = true)
    (e out : t8_dtri_t) (hwf : WellFormed S e) (h0 : 0 < e.level) :
    WellFormed S (parentSpec S e out) := by
  obtain ⟨a0, a1, ax, ay, az⟩ := parentSpec_anchorOK S e out hwf h0
  refine ⟨a0, a1, ?_, ax, ay, az⟩
  obtain ⟨hc0, hc1⟩ := cubeIdVal_range S e e.level
  obtain ⟨ht0, ht1⟩ := hwf.2.2.1
  unfold tablesParentRange at hP
  rw [List.all_eq_true] at hP
  have h1 := hP (cubeIdVal S e e.level).toNat (List.mem_range.mpr (by omega))
  rw [List.all_eq_true] at h1
  have h2 := h1 e.type.toNat (List.mem_range.mpr (by omega))
  simp only [decide_eq_true_eq] at h2
  exact h2

theorem parentSpec_sameElem (S : Scheme) (e out out' : t8_dtri_t) :
    sameElem S (parentSpec S e out) (parentSpec S e out') :=
  ⟨rfl, rfl, rfl, rfl, fun htet => by simp [parentSpec, htet]⟩

theorem siblingClosure_of_tables (S : Scheme) (hS : tablesRoundTrip S = true)
    (hP : tablesParentRange S = true) (e out out2 out3 : t8_dtri_t) (b : Int)
    (hwf : WellFormed S e) (h0 : e.level > 0) (hb : 0 ≤ b ∧ b < S.T8_DTRI_CHILDREN) :
    ∃ s q p, siblingOf S e b out = .ok s ∧ parentOf S s out2 = .ok q ∧
      parentOf S e out3 = .ok p ∧ sameElem S q p := by
  have hpar := parentOf_eq S e out h0 hwf.2.1 hwf.2.2.1
  rw [parentOf_eq_parentRes] at hpar
  have hwfP := parentSpec_wellFormed S hP e out hwf h0
  have hlP : (parentSpec S e out).level < S.MAXLEVEL := by
    show e.level - 1 < S.MAXLEVEL
    have := hwf.2.1
    omega
  obtain ⟨c, q, hc, hq, hs⟩ :=
    roundTrip_of_tables S hS (parentSpec S e out) (parentSpec S e out) out2 b hwfP hlP hb
  refine ⟨c, q, _, ?_, hq, parentOf_eq S e out3 h0 hwf.2.1 hwf.2.2.1,
    sameElem_trans S _ _ _ hs (parentSpec_sameElem S e out out3)⟩
  rw [siblingOf_eq S e out b hb h0, hpar]
  rw [childOf_eq_childRes] at hc
  exact hc

/-- C11: in both builds, with the constant tables of the refinement scheme and any
`MAXLEVEL`, for every well-formed element `e` with `level > 0` and every id `b` in
`[0, numChildren)`, `t8_dtri_sibling (e, b)` returns an element `s`, `t8_dtri_parent (s)`
and `t8_dtri_parent (e)` return elements, and these two have the same level, type and
anchor. -/
theorem C11_parent_of_sibling (M : Nat) (S : Scheme) (hS : S = triScheme M ∨ S = tetScheme M)
    (e out out2 out3 : t8_dtri_t) (b : Int) (hwf : WellFormed S e) (h0 : e.level > 0)
    (hb : 0 ≤ b ∧ b < S.T8_DTRI_CHILDREN) :
    ∃ s q p, siblingOf S e b out = .ok s ∧ parentOf S s out2 = .ok q ∧
      parentOf S e out3 = .ok p ∧ sameElem S q p := by
  rcases hS with rfl | rfl
  · exact siblingClosure_of_tables _ (tablesRoundTrip_tri M) (tablesParentRange_tri M)
      e out out2 out3 b hwf h0 hb
  · exact siblingClosure_of_tables _ (tablesRoundTrip_tet M) (tablesParentRange_tet M)
      e out out2 out3 b hwf h0 hb

/-- C11 (witness): the tetrahedron `{level 1, type 0, anchor (2^20, 0, 2^20)}`, child 4
of the root, with `MAXLEVEL = 21` and `b = 7`; the sibling is
`{level 1, type 0, anchor (2^20, 2^20, 2^20)}` and both parents are the root. -/
theorem C11_parent_of_sibling_witness :
    WellFormed (tetScheme 21) ⟨2 ^ 20, 0, 2 ^ 20, 1, 0, 0⟩ ∧
    (⟨2 ^ 20, 0, 2 ^ 20, 1, 0, 0⟩ : t8_dtri_t).level > 0 ∧
    ((0 : Int) ≤ 7 ∧ (7 : Int) < (tetScheme 21).T8_DTRI_CHILDREN) ∧
    siblingOf (tetScheme 21) ⟨2 ^ 20, 0, 2 ^ 20, 1, 0, 0⟩ 7 ⟨0, 0, 0, 0, 0, 0⟩ =
      .ok ⟨2 ^ 20, 2 ^ 20, 2 ^ 20, 1, 0, 0⟩ ∧
    ∃ s q p, siblingOf (tetScheme 21) ⟨2 ^ 20, 0, 2 ^ 20, 1, 0, 0⟩ 7 ⟨0, 0, 0, 0, 0, 0⟩ = .ok s ∧
      parentOf (tetScheme 21) s ⟨0, 0, 0, 0, 0, 0⟩ = .ok q ∧
      parentOf (tetScheme 21) ⟨2 ^ 20, 0, 2 ^ 20, 1, 0, 0⟩ ⟨0, 0, 0, 0, 0, 0⟩ = .ok p ∧
      sameElem (tetScheme 21) q p :=
  ⟨by decide, by decide, by decide, rfl,
    C11_parent_of_sibling 21 (tetScheme 21) (Or.inr rfl) ⟨2 ^ 20, 0, 2 ^ 20, 1, 0, 0⟩
      ⟨0, 0, 0, 0, 0, 0⟩ ⟨0, 0, 0, 0, 0, 0⟩ ⟨0, 0, 0, 0, 0, 0⟩ 7 (by decide) (by decide)
      (by decide)⟩

/-! ### C14: failing preconditions of parent and child -/

theorem parentOf_level_le_zero (S : Scheme) (e out : t8_dtri_t) (h : ¬ (e.level > 0)) :
    parentOf S e out = .error .InvalidLevel := by
  rw [parentOf_eq_parentRes]
  simp [parentRes, h]

theorem childOf_level_ge (S : Scheme) (e out : t8_dtri_t) (i : Int)
    (h : ¬ (e.level < S.MAXLEVEL)) : childOf S e i out = .error .InvalidLevel := by
  rw [childOf_eq_childRes]
  simp [childRes, h]

theorem childOf_index_out (S : Scheme) (e out : t8_dtri_t) (i : Int)
    (hl : e.level < S.MAXLEVEL) (h : ¬ (0 ≤ i ∧ i < S.T8_DTRI_CHILDREN)) :
    childOf S e i out = .error .InvalidIndex := by
  rw [childOf_eq_childRes]
  unfold childRes
  simp only [hl, not_true_eq_false, if_false, h, not_false_eq_true, if_true]

theorem navigator_failures_of_tables (S : Scheme) (hS : tablesRoundTrip S = true)
    (e out : t8_dtri_t) (i : Int) (hwf : WellFormed S e) :
    (¬ (e.level > 0) → parentOf S e out = .error .InvalidLevel) ∧
    (e.level > 0 → ∃ p, parentOf S e out = .ok p) ∧
    (¬ (e.level < S.MAXLEVEL) → childOf S e i out = .error .InvalidLevel) ∧
    (e.level < S.MAXLEVEL → ¬ (0 ≤ i ∧ i < S.T8_DTRI_CHILDREN) →
      childOf S e i out = .error .InvalidIndex) ∧
    (e.level < S.MAXLEVEL → (0 ≤ i ∧ i < S.T8_DTRI_CHILDREN) →
      ∃ c, childOf S e i out = .ok c) := by
  refine ⟨parentOf_level_le_zero S e out,
    fun h0 => ⟨_, parentOf_eq S e out h0 hwf.2.1 hwf.2.2.1⟩,
    childOf_level_ge S e out i, childOf_index_out S e out i, ?_⟩
  intro hl hi
  exact ⟨_, childOf_eq S e out i hwf hl hi (tablesRoundTrip_apply S hS e.type i hwf.2.2.1 hi).1⟩

/-- C14: in both builds, with the constant tables of the refinement scheme, on every
well-formed element `e`: `t8_dtri_parent (e)` fails if and only if `e.level` is not
`> 0`, and then with `InvalidLevel`; `t8_dtri_child (e, i)` fails if and only if
`e.level >= MAXLEVEL` or `i` is outside `[0, numChildren)`, with `InvalidLevel` in the
first case and `InvalidIndex` in the second case when the level is in range; in every
other case the call returns an element. -/
theorem C14_navigator_preconditions (M : Nat) (S : Scheme)
    (hS : S = triScheme M ∨ S = tetScheme M) (e out : t8_dtri_t) (i : Int)
    (hwf : WellFormed S e) :
    ((∃ err, parentOf S e out = .error err) ↔ ¬ (e.level > 0)) ∧
    (¬ (e.level > 0) → parentOf S e out = .error .InvalidLevel) ∧
    (e.level > 0 → ∃ p, parentOf S e out = .ok p) ∧
    ((∃ err, childOf S e i out = .error err) ↔
      (e.level ≥ S.MAXLEVEL ∨ ¬ (0 ≤ i ∧ i < S.T8_DTRI_CHILDREN))) ∧
    (e.level ≥ S.MAXLEVEL → childOf S e i out = .error .InvalidLevel) ∧
    (e.level < S.MAXLEVEL → ¬ (0 ≤ i ∧ i < S.T8_DTRI_CHILDREN) →
      childOf S e i out = .error .InvalidIndex) ∧
    (e.level < S.MAXLEVEL → (0 ≤ i ∧ i < S.T8_DTRI_CHILDREN) →
      ∃ c, childOf S e i out = .ok c) := by
  have hT : tablesRoundTrip S = true := by
    rcases hS with rfl | rfl
    · exact tablesRoundTrip_tri M
    · exact tablesRoundTrip_tet M
  obtain ⟨p1, p2, c1, c2, c3⟩ := navigator_failures_of_tables S hT e out i hwf
  refine ⟨?_, p1, p2, ?_, fun h => c1 (by omega), c2, c3⟩
  · constructor
    · rintro ⟨err, herr⟩ h0
      obtain ⟨p, hp⟩ := p2 h0
      rw [hp] at herr
      cases herr
    · intro h0
      exact ⟨_, p1 h0⟩
  · constructor
    · rintro ⟨err, herr⟩
      by_contra hcon
      have hl : e.level < S.MAXLEVEL := by
        by_contra hl
        exact hcon (Or.inl (by omega))
      have hi : (0 ≤ i ∧ i < S.T8_DTRI_CHILDREN) := by
        by_contra hi
        exact hcon (Or.inr hi)
      obtain ⟨c, hc⟩ := c3 hl hi
      rw [hc] at herr
      cases herr
    · rintro (h | h)
      · exact ⟨_, c1 (by omega)⟩
      · by_cases hl : e.level < S.MAXLEVEL
        · exact ⟨_, c2 hl h⟩
        · exact ⟨_, c1 hl⟩

/-- C14 (witness): the triangle root with `MAXLEVEL = 29` and child index 4, which is
outside `[0, 4)`: the parent call fails with `InvalidLevel`, the child call with
`InvalidIndex`, and the child call with index 3 returns an element. -/
theorem C14_navigator_preconditions_witness :
    WellFormed (triScheme 29) ⟨0, 0, 0, 0, 0, 0⟩ ∧
    parentOf (triScheme 29) ⟨0, 0, 0, 0, 0, 0⟩ ⟨0, 0, 0, 0, 0, 0⟩ = .error .InvalidLevel ∧
    childOf (triScheme 29) ⟨0, 0, 0, 0, 0, 0⟩ 4 ⟨0, 0, 0, 0, 0, 0⟩ = .error .InvalidIndex ∧
    childOf (triScheme 29) ⟨0, 0, 0, 0, 0, 0⟩ 3 ⟨0, 0, 0, 0, 0, 0⟩ =
      .ok ⟨2 ^ 28, 2 ^ 28, 0, 1, 0, 0⟩ ∧
    childOf (triScheme 29) ⟨0, 0, 0, 29, 0, 0⟩ 3 ⟨0, 0, 0, 0, 0, 0⟩ = .error .InvalidLevel ∧
    (((∃ err, parentOf (triScheme 29) ⟨0, 0, 0, 0, 0, 0⟩ ⟨0, 0, 0, 0, 0, 0⟩ = .error err) ↔
        ¬ ((⟨0, 0, 0, 0, 0, 0⟩ : t8_dtri_t).level > 0)) ∧
      (¬ ((⟨0, 0, 0, 0, 0, 0⟩ : t8_dtri_t).level > 0) →
        parentOf (triScheme 29) ⟨0, 0, 0, 0, 0, 0⟩ ⟨0, 0, 0, 0, 0, 0⟩ = .error .InvalidLevel) ∧
      ((⟨0, 0, 0, 0, 0, 0⟩ : t8_dtri_t).level > 0 →
        ∃ p, parentOf (triScheme 29) ⟨0, 0, 0, 0, 0, 0⟩ ⟨0, 0, 0, 0, 0, 0⟩ = .ok p) ∧
      ((∃ err, childOf (triScheme 29) ⟨0, 0, 0, 0, 0, 0⟩ 4 ⟨0, 0, 0, 0, 0, 0⟩ = .error err) ↔
        ((⟨0, 0, 0, 0, 0, 0⟩ : t8_dtri_t).level ≥ (triScheme 29).MAXLEVEL ∨
          ¬ ((0 : Int) ≤ 4 ∧ (4 : Int) < (triScheme 29).T8_DTRI_CHILDREN))) ∧
      ((⟨0, 0, 0, 0, 0, 0⟩ : t8_dtri_t).level ≥ (triScheme 29).MAXLEVEL →
        childOf (triScheme 29) ⟨0, 0, 0, 0, 0, 0⟩ 4 ⟨0, 0, 0, 0, 0, 0⟩ = .error .InvalidLevel) ∧
      ((⟨0, 0, 0, 0, 0, 0⟩ : t8_dtri_t).level < (triScheme 29).MAXLEVEL →
        ¬ ((0 : Int) ≤ 4 ∧ (4 : Int) < (triScheme 29).T8_DTRI_CHILDREN) →
        childOf (triScheme 29) ⟨0, 0, 0, 0, 0, 0⟩ 4 ⟨0, 0, 0, 0, 0, 0⟩ = .error .InvalidIndex) ∧
      ((⟨0, 0, 0, 0, 0, 0⟩ : t8_dtri_t).level < (triScheme 29).MAXLEVEL →
        ((0 : Int) ≤ 4 ∧ (4 : Int) < (triScheme 29).T8_DTRI_CHILDREN) →
        ∃ c, childOf (triScheme 29) ⟨0, 0, 0, 0, 0, 0⟩ 4 ⟨0, 0, 0, 0, 0, 0⟩ = .ok c)) :=
  ⟨by decide, rfl, rfl, rfl, rfl,
    C14_navigator_preconditions 29 (triScheme 29) (Or.inl rfl) ⟨0, 0, 0, 0, 0, 0⟩
      ⟨0, 0, 0, 0, 0, 0⟩ 4 (by decide)⟩

/-! ### C18: the face neighbour of a well-formed element -/

theorem neighbour_coord (S : Scheme) (l c d : Int) (h0 : 0 ≤ l) (h1 : l ≤ S.MAXLEVEL)
    (hc : CoordOK S l c)
    (hd : d = 0 ∨ d = T8_DTRI_LEN S l ∨ d = -(T8_DTRI_LEN S l)) :
    NeighbourCoordOK S l (c + d) := by
  obtain ⟨hle, hpos⟩ := coord_add_len_le S l c h0 h1 hc
  obtain ⟨hc0, hc1, hmod⟩ := hc
  have hdvd : T8_DTRI_LEN S l ∣ c := Int.dvd_of_emod_eq_zero hmod
  unfold NeighbourCoordOK
  rcases hd with rfl | rfl | rfl
  · refine ⟨by omega, by omega, ?_⟩
    simpa using hmod
  · refine ⟨by omega, by omega, ?_⟩
    exact Int.emod_eq_zero_of_dvd (dvd_add hdvd (dvd_refl _))
  · refine ⟨by omega, by omega, ?_⟩
    exact Int.emod_eq_zero_of_dvd (dvd_add hdvd ((Int.dvd_neg).mpr (dvd_refl _)))

theorem specNeighbourTri_coords (S : Scheme) (e out : t8_dtri_t) (f : Int)
    (hwf : WellFormed S e) :
    NeighbourCoordOK S e.level (specNeighbourTri S e out f).1.x ∧
    NeighbourCoordOK S e.level (specNeighbourTri S e out f).1.y := by
  obtain ⟨h0, h1, -, hx, hy, -⟩ := hwf
  constructor
  · apply neighbour_coord S e.level e.x _ h0 h1 hx
    dsimp only
    split_ifs <;> omega
  · apply neighbour_coord S e.level e.y _ h0 h1 hy
    dsimp only
    split_ifs <;> omega

theorem specNeighbourTet_coords (S : Scheme) (e out : t8_dtri_t) (f : Int)
    (hwf : WellFormed S e) (htet : S.tet = true) :
    NeighbourCoordOK S e.level (specNeighbourTet S e out f).1.x ∧
    NeighbourCoordOK S e.level (specNeighbourTet S e out f).1.y ∧
    NeighbourCoordOK S e.level (specNeighbourTet S e out f).1.z := by
  obtain ⟨h0, h1, -, hx, hy, hz⟩ := hwf
  refine ⟨?_, ?_, ?_⟩
  · apply neighbour_coord S e.level e.x _ h0 h1 hx
    dsimp only
    split_ifs <;> omega
  · apply neighbour_coord S e.level e.y _ h0 h1 hy
    dsimp only
    split_ifs <;> omega
  · apply neighbour_coord S e.level e.z _ h0 h1 (hz htet)
    dsimp only
    split_ifs <;> omega

/-- C18 (counterexample): the triangle root `{level 0, type 0, anchor (0, 0)}` with
`MAXLEVEL = 29` is well-formed; its neighbour across face 0 has `x = 2^29`, which is not
below `2^MAXLEVEL`, and its neighbour across face 2 has `y = -2^29`, which is negative. -/
theorem C18_face_neighbour_counterexample :
    WellFormed (triScheme 29) ⟨0, 0, 0, 0, 0, 0⟩ ∧
    faceNeighbourOf (triScheme 29) ⟨0, 0, 0, 0, 0, 0⟩ ⟨0, 0, 0, 0, 0, 0⟩ 0 =
      .ok (⟨2 ^ 29, 0, 0, 0, 1, 0⟩, 2) ∧
    ¬ ((2 : Int) ^ 29 < 2 ^ (triScheme 29).MAXLEVEL) ∧
    faceNeighbourOf (triScheme 29) ⟨0, 0, 0, 0, 0, 0⟩ ⟨0, 0, 0, 0, 0, 0⟩ 2 =
      .ok (⟨0, -2 ^ 29, 0, 0, 1, 0⟩, 0) ∧
    ¬ ((0 : Int) ≤ -2 ^ 29) :=
  ⟨by decide, rfl, by decide, rfl, by decide⟩

/-- C18 (amended): for every well-formed element `e` and every valid face,
`t8_dtri_face_neighbour (e, face)` returns an element with the level of `e`, a type in the
type domain, and every anchor coordinate a multiple of `h(level)` in
`[-h(level), 2^MAXLEVEL]`. -/
theorem C18_face_neighbour_element (S : Scheme) (e out : t8_dtri_t) (f : Int)
    (hwf : WellFormed S e) (hf : 0 ≤ f ∧ f < S.T8_DTRI_FACES) :
    ∃ n ret, faceNeighbourOf S e out f = .ok (n, ret) ∧
      n.level = e.level ∧ TypeOK S n ∧
      NeighbourCoordOK S n.level n.x ∧ NeighbourCoordOK S n.level n.y ∧
      (S.tet = true → NeighbourCoordOK S n.level n.z) := by
  cases htet : S.tet
  · obtain ⟨hx, hy⟩ := specNeighbourTri_coords S e out f hwf
    exact ⟨_, _, faceNeighbourOf_tri S e out f htet hwf.2.2.1 hf, rfl,
      (specNeighbourTri_involution S e out out f htet hwf.2.2.1 hf).1, hx, hy,
      fun h => by cases h⟩
  · obtain ⟨hx, hy, hz⟩ := specNeighbourTet_coords S e out f hwf htet
    exact ⟨_, _, faceNeighbourOf_tet S e out f htet hwf.2.2.1 hf, rfl,
      (specNeighbourTet_involution S e out out f htet hwf.2.2.1 hf).1, hx, hy,
      fun _ => hz⟩

/-- C18 (witness): the tetrahedron root with `MAXLEVEL = 21` and face 3, whose neighbour
has `y = -2^21`. -/
theorem C18_face_neighbour_element_witness :
    WellFormed (tetScheme 21) ⟨0, 0, 0, 0, 0, 0⟩ ∧
    ((0 : Int) ≤ 3 ∧ (3 : Int) < (tetScheme 21).T8_DTRI_FACES) ∧
    faceNeighbourOf (tetScheme 21) ⟨0, 0, 0, 0, 0, 0⟩ ⟨0, 0, 0, 0, 0, 0⟩ 3 =
      .ok (⟨0, -2 ^ 21, 0, 0, 2, 0⟩, 0) ∧
    ∃ n ret, faceNeighbourOf (tetScheme 21) ⟨0, 0, 0, 0, 0, 0⟩ ⟨0, 0, 0, 0, 0, 0⟩ 3 =
        .ok (n, ret) ∧
      n.level = (⟨0, 0, 0, 0, 0, 0⟩ : t8_dtri_t).level ∧ TypeOK (tetScheme 21) n ∧
      NeighbourCoordOK (tetScheme 21) n.level n.x ∧
      NeighbourCoordOK (tetScheme 21) n.level n.y ∧
      ((tetScheme 21).tet = true → NeighbourCoordOK (tetScheme 21) n.level n.z) :=
  ⟨by decide, by decide, rfl,
    C18_face_neighbour_element (tetScheme 21) ⟨0, 0, 0, 0, 0, 0⟩ ⟨0, 0, 0, 0, 0, 0⟩ 3
      (by decide) (by decide)⟩

end T8
